import Mathlib

/-!
# WireGuard configuration updater (`src/aarch64/app/config_updater.c`)

A shallow embedding of the daemon's functions as state transformers on a `World`:
the parameter store, the file system, the system log, the sequence of library and
system calls issued so far, the child processes started and the callbacks
registered.

Conventions of the embedding.

* A C string is a `String`; one `Char` stands for one `char`.
* Every call whose failure changes the files, the log or the processes left behind
  takes its outcome as an input (`Sys`, `IoResult`, `Landed`, `ForkResult`,
  `AxResult`, the store's `GetResult`), whether the source inspects its return value
  or discards it, as it does for `fprintf`, `fclose` and the `chmod` of the
  configuration file; both branches of every test the source makes are present.
* An `err` outcome of the `stat` in `start_wireguard` stands for a runtime script that
  cannot be reached (a failed path resolution in the package directory, as with
  EACCES); the opens that `copy_script_file` then makes in that directory and the
  child's `execl` fail with the same error.
* The child's `execl` succeeds only on a runtime script that is present with an
  execute bit.
* `main` is followed up to its call of `g_main_loop_run`.
-/

namespace ConfigUpdater

/-! ## Constants (lines 19-22) -/

def APP_NAME : String := "wireguardconfig"
def CONFIG_FILE : String := "/usr/local/packages/wireguardconfig/config.txt"
def SCRIPT_PATH : String := "/usr/local/packages/wireguardconfig/start_wireguard.sh"
def SCRIPT_SOURCE : String := "/usr/local/packages/wireguardconfig/lib/start_wireguard.sh"

/-! ## The world the program acts on -/

/-- Syslog priorities used by the program. -/
inductive Priority
  | LOG_INFO
  | LOG_ERR
  deriving DecidableEq, Repr

/-- One message handed to `syslog`, after formatting. -/
structure LogEntry where
  priority : Priority
  message : String
  deriving DecidableEq, Repr

/-- A regular file: its bytes and its permission bits. -/
structure File where
  content : String
  mode : Nat
  deriving DecidableEq, Repr

/-- Whether a file has an execute bit. -/
def File.executable (f : File) : Bool := f.mode &&& 0o111 != 0

/-- Outcome of `ax_parameter_get`: `ok value` is a TRUE return with `*value` set
(`none` is a NULL pointer), `fail error` a FALSE return with `*error` set (`none`
is a NULL `GError`, otherwise the error message). -/
inductive GetResult
  | ok (value : Option String)
  | fail (error : Option String)
  deriving DecidableEq, Repr

/-- Outcome of `ax_parameter_new` and of `ax_parameter_register_callback`. -/
inductive AxResult
  | ok
  | fail (error : Option String)
  deriving DecidableEq, Repr

/-- Outcome of a system call that returns 0 or -1; `err` carries `strerror(errno)`. -/
inductive Sys
  | ok
  | err (strerror : String)
  deriving DecidableEq, Repr

/-- Outcome of one `read` or `write`: `error` is a return of -1, `upto n` lets the
call transfer at most `n` bytes. -/
inductive IoResult
  | error (strerror : String)
  | upto (n : Nat)
  deriving DecidableEq, Repr

/-- What reaches the file of the text handed to one `fprintf` on a stream, at the call
or when `fclose` flushes the stream: all of it, or only its first `n` bytes (none
for `first 0`, as on a full disk). -/
inductive Landed
  | all
  | first (n : Nat)
  deriving DecidableEq, Repr

/-- Outcome of `fork`: `fail` is a negative return in the parent; `child pid exec` is
a successful fork, the parent seeing `pid` and the child's `execl` ending as `exec`. -/
inductive ForkResult
  | fail (strerror : String)
  | child (pid : Nat) (exec : Sys)
  deriving DecidableEq, Repr

/-- Library and system calls issued by the parent process, with their arguments. -/
inductive Call
  | ax_parameter_get (name : String)
  | ax_parameter_register_callback (name : String)
  | fopen (path mode : String)
  | fprintf (path text : String)
  | fclose (path : String)
  | chmod (path : String) (mode : Nat)
  | open_rdonly (path : String)
  | open_wronly_creat_trunc (path : String) (mode : Nat)
  | read (path : String) (count : Nat)
  | write (path : String) (data : String)
  | close (path : String)
  | stat (path : String)
  | fork
  deriving DecidableEq, Repr

/-- What became of a forked child: `running` when `execl` replaced its image,
`exited` when `execl` returned and the child logged the failure and called `_exit`. -/
inductive ChildState
  | running (path : String) (argv : List String)
  | exited (status : Nat) (logged : LogEntry)
  deriving DecidableEq, Repr

/-- A child process created by `fork`. -/
structure Child where
  pid : Nat
  state : ChildState
  deriving DecidableEq, Repr

/-- State of everything the program reads or changes. -/
structure World where
  store : String → GetResult
  fs : String → Option File
  umask : Nat
  log : List LogEntry
  calls : List Call
  children : List Child
  callbacks : List String

namespace World

/-- Send one formatted message to the system log. -/
def syslog (w : World) (p : Priority) (msg : String) : World :=
  { w with log := w.log ++ [⟨p, msg⟩] }

/-- Record that a call was issued. -/
def call (w : World) (c : Call) : World :=
  { w with calls := w.calls ++ [c] }

/-- Put file `f` at `path`. -/
def setFile (w : World) (path : String) (f : File) : World :=
  { w with fs := fun p => if p = path then some f else w.fs p }

/-- Mode given to a file created with requested mode `mode` under `umask`. -/
def createMode (umask mode : Nat) : Nat := mode &&& (0o777 ^^^ (umask &&& 0o777))

/-- Effect of opening `path` for writing with creation and truncation: an existing
file keeps its mode and loses its bytes, a new file gets `mode` masked by the umask. -/
def truncate (w : World) (path : String) (mode : Nat) : World :=
  match w.fs path with
  | some f => w.setFile path { f with content := "" }
  | none => w.setFile path ⟨"", createMode w.umask mode⟩

/-- Effect of writing `text` at the end of the open file `path`. -/
def append (w : World) (path text : String) : World :=
  match w.fs path with
  | some f => w.setFile path { f with content := f.content ++ text }
  | none => w

/-- Effect of a successful `chmod(path, mode)`. -/
def setMode (w : World) (path : String) (mode : Nat) : World :=
  match w.fs path with
  | some f => w.setFile path { f with mode := mode }
  | none => w

end World

/-! ## `update_config_file` (lines 106-197) -/

/-- One of the six blocks of lines 117-163: `ax_parameter_get(handle, name, &v, &error)`;
on a FALSE return the failure is logged and `v = g_strdup(dflt)`. -/
def get_parameter (name dflt : String) (w : World) : Option String × World :=
  let w := w.call (.ax_parameter_get name)
  match w.store name with
  | .ok value => (value, w)
  | .fail error =>
      (some dflt, w.syslog .LOG_ERR ("Failed to get " ++ name ++ ": " ++ error.getD "unknown error"))

/-- The part of `text` that reaches the file under outcome `r`. -/
def Landed.of (r : Landed) (text : String) : String :=
  match r with
  | .all => text
  | .first n => String.mk (text.data.take n)

/-- The call `fprintf(file, fmt, ...)` with the formatted `text`, on the open file
`path`; `r` tells what reaches the file.  The source discards the result. -/
def fprintf (path text : String) (r : Landed) (w : World) : World :=
  (w.call (.fprintf path text)).append path (r.of text)

/-- Outcomes of the calls of `update_config_file` after its `fopen`, all discarded by
the source: `fprintf i` for the six `fprintf`s in order with the final `fclose`, and
the `chmod`. -/
structure WriteOutcome where
  fprintf : Nat → Landed
  chmod : Sys

/-- The test `s && strlen(s) > 0` of lines 180 and 183. -/
def nonempty (s : Option String) : Bool :=
  match s with
  | some v => decide (0 < v.length)
  | none => false

/-- Lines 106-197.  `fopen_ok` is whether `fopen(CONFIG_FILE, "w")` returns a stream;
`io` holds the outcomes of the writes and of the `chmod`, whose failure the source
neither tests nor logs. -/
def update_config_file (fopen_ok : Bool) (io : WriteOutcome) (w : World) : World :=
  let r1 := get_parameter "PrivateKey" "" w
  let private_key := r1.1
  let r2 := get_parameter "ListenPort" "51820" r1.2
  let listen_port := r2.1
  let r3 := get_parameter "Endpoint" "" r2.2
  let endpoint := r3.1
  let r4 := get_parameter "PeerPublicKey" "" r3.2
  let peer_public_key := r4.1
  let r5 := get_parameter "AllowedIPs" "0.0.0.0/0" r4.2
  let allowed_ips := r5.1
  let r6 := get_parameter "ClientIP" "10.0.0.2/24" r5.2
  let client_ip := r6.1
  let w := r6.2.call (.fopen CONFIG_FILE "w")
  if fopen_ok then
    let w := w.truncate CONFIG_FILE 0o666
    let w := fprintf CONFIG_FILE ("private_key=" ++ private_key.getD "" ++ "\n") (io.fprintf 0) w
    let w := fprintf CONFIG_FILE ("listen_port=" ++ listen_port.getD "51820" ++ "\n") (io.fprintf 1) w
    let w := fprintf CONFIG_FILE ("endpoint=" ++ endpoint.getD "" ++ "\n") (io.fprintf 2) w
    let w := fprintf CONFIG_FILE ("peer_public_key=" ++ peer_public_key.getD "" ++ "\n")
      (io.fprintf 3) w
    let w := fprintf CONFIG_FILE ("allowed_ips=" ++ allowed_ips.getD "0.0.0.0/0" ++ "\n")
      (io.fprintf 4) w
    let w := fprintf CONFIG_FILE ("client_ip=" ++ client_ip.getD "10.0.0.2/24" ++ "\n")
      (io.fprintf 5) w
    let w := w.call (.fclose CONFIG_FILE)
    let w := w.call (.chmod CONFIG_FILE 0o600)
    let w := match io.chmod with
      | .ok => w.setMode CONFIG_FILE 0o600
      | .err _ => w
    let w := w.syslog .LOG_INFO "Updated configuration file with new parameters"
    let w := w.syslog .LOG_INFO
      ("private_key=" ++ (if nonempty private_key then "(set)" else "(empty)"))
    let w := w.syslog .LOG_INFO ("listen_port=" ++ listen_port.getD "51820")
    let w := w.syslog .LOG_INFO ("endpoint=" ++ endpoint.getD "(empty)")
    let w := w.syslog .LOG_INFO
      ("peer_public_key=" ++ (if nonempty peer_public_key then "(set)" else "(empty)"))
    let w := w.syslog .LOG_INFO ("allowed_ips=" ++ allowed_ips.getD "0.0.0.0/0")
    w.syslog .LOG_INFO ("client_ip=" ++ client_ip.getD "10.0.0.2/24")
  else
    w.syslog .LOG_ERR "Failed to open config file for writing"

/-! ## `copy_script_file` (lines 31-75) -/

/-- Outcomes of the calls of `copy_script_file` whose result it tests; `read i` and
`write i` are the outcomes of the calls made in iteration `i` of the copy loop, and
`errno` is the text `strerror(errno)` gives after a short write, which leaves `errno`
as it was. -/
structure CopyOutcome where
  open_source : Sys
  open_dest : Sys
  read : Nat → IoResult
  write : Nat → IoResult
  errno : String
  chmod : Sys

/-- How the copy loop of lines 54-62 was left: `finished` when `read` returned 0 or
less, `write_failed` by the early return of lines 56-61. -/
inductive LoopExit
  | finished
  | write_failed (strerror : String)
  deriving DecidableEq, Repr

/-- The `while` loop of lines 54-62 with buffer size `bufsize`, started at iteration
`i` with `remaining` the unread bytes of the source and `w` the current world.
`fuel` bounds the number of iterations; `none` means the bound was reached. -/
def copy_loop (rd wr : Nat → IoResult) (errno : String) (bufsize : Nat) :
    Nat → Nat → List Char → World → Option (LoopExit × World)
  | 0, _, _, _ => none
  | fuel + 1, i, remaining, w =>
    let w := w.call (.read SCRIPT_SOURCE bufsize)
    match rd i with
    | .error _ => some (.finished, w)
    | .upto n =>
      let buffer := remaining.take (min n bufsize)
      if 0 < buffer.length then
        let written := match wr i with
          | .error _ => []
          | .upto m => buffer.take m
        let w := (w.call (.write SCRIPT_PATH (String.mk buffer))).append SCRIPT_PATH (String.mk written)
        if written.length ≠ buffer.length then
          some (.write_failed (match wr i with | .error e => e | .upto _ => errno), w)
        else
          copy_loop rd wr errno bufsize fuel (i + 1) (remaining.drop buffer.length) w
      else
        some (.finished, w)

/-- Lines 31-75.  The source open fails when the outcome says so or when the bundled
source is absent.  The destination open creates or truncates the runtime script.
The loop runs with the 4096-byte buffer and with more fuel than it has bytes to
read, so that its `none` case is never taken (`copy_loop_isSome`). -/
def copy_script_file (o : CopyOutcome) (w : World) : World :=
  let w := w.syslog .LOG_INFO ("Copying script from " ++ SCRIPT_SOURCE ++ " to " ++ SCRIPT_PATH)
  let w := w.call (.open_rdonly SCRIPT_SOURCE)
  let source_fd : Except String File :=
    match o.open_source, w.fs SCRIPT_SOURCE with
    | .err e, _ => .error e
    | .ok, none => .error "No such file or directory"
    | .ok, some f => .ok f
  match source_fd with
  | .error e => w.syslog .LOG_ERR ("Failed to open source script: " ++ e)
  | .ok source =>
    let w := w.call (.open_wronly_creat_trunc SCRIPT_PATH 0o755)
    match o.open_dest with
    | .err e =>
      (w.syslog .LOG_ERR ("Failed to open destination script: " ++ e)).call (.close SCRIPT_SOURCE)
    | .ok =>
      let w := w.truncate SCRIPT_PATH 0o755
      match copy_loop o.read o.write o.errno 4096 (source.content.data.length + 1) 0 source.content.data w with
      | none => w
      | some (.write_failed e, w) =>
        ((w.syslog .LOG_ERR ("Error writing to destination file: " ++ e)).call
          (.close SCRIPT_SOURCE)).call (.close SCRIPT_PATH)
      | some (.finished, w) =>
        let w := (w.call (.close SCRIPT_SOURCE)).call (.close SCRIPT_PATH)
        let w := w.call (.chmod SCRIPT_PATH 0o755)
        match o.chmod with
        | .err e => w.syslog .LOG_ERR ("Failed to make script executable: " ++ e)
        | .ok =>
          (w.setMode SCRIPT_PATH 0o755).syslog .LOG_INFO
            "Script copied and made executable successfully"

/-! ## `start_wireguard` (lines 78-103) -/

/-- Outcomes of the calls of `start_wireguard`: the `stat`, those of the nested
`copy_script_file`, and the `fork` with the child's `execl`. -/
structure StartOutcome where
  stat : Sys
  copy : CopyOutcome
  fork : ForkResult

/-- Result of `stat(path, &st)` under outcome `r` for a path holding `f`: it fails
when the outcome says so and when the path is absent. -/
def stat_result (r : Sys) (f : Option File) : Sys :=
  match r, f with
  | .err e, _ => .err e
  | .ok, none => .err "No such file or directory"
  | .ok, some _ => .ok

/-- Outcomes met by `copy_script_file` when it is called after a `stat` of outcome
`r`: a script that could not be reached cannot be opened either. -/
def CopyOutcome.after (o : CopyOutcome) (r : Sys) : CopyOutcome :=
  match r with
  | .ok => o
  | .err e => { o with open_source := .err e, open_dest := .err e }

/-- What becomes of the child (lines 93-100) whose `execl` has outcome `exec`, after a
`stat` of outcome `r`, the runtime script being `f`. -/
def child_state (r exec : Sys) (f : Option File) : ChildState :=
  match r, exec, f with
  | .err e, _, _ => .exited 1 ⟨.LOG_ERR, "Failed to execute WireGuard script: " ++ e⟩
  | .ok, .err e, _ => .exited 1 ⟨.LOG_ERR, "Failed to execute WireGuard script: " ++ e⟩
  | .ok, .ok, none =>
    .exited 1 ⟨.LOG_ERR, "Failed to execute WireGuard script: No such file or directory"⟩
  | .ok, .ok, some f =>
    if f.executable then .running SCRIPT_PATH ["start_wireguard.sh"]
    else .exited 1 ⟨.LOG_ERR, "Failed to execute WireGuard script: Permission denied"⟩

/-- Lines 78-103.  The child's side of the `fork` (lines 93-100) is recorded in
`children`. -/
def start_wireguard (o : StartOutcome) (w : World) : World :=
  let w := w.syslog .LOG_INFO "Starting WireGuard VPN script"
  let w := w.call (.stat SCRIPT_PATH)
  let w :=
    match stat_result o.stat (w.fs SCRIPT_PATH) with
    | .err _ =>
      copy_script_file (o.copy.after o.stat)
        (w.syslog .LOG_INFO ("Script not found at " ++ SCRIPT_PATH ++ ", copying from lib folder"))
    | .ok => w
  let w := w.call .fork
  match o.fork with
  | .fail e => w.syslog .LOG_ERR ("Failed to fork for WireGuard script: " ++ e)
  | .child pid exec =>
    let w := { w with
      children := w.children ++ [Child.mk pid (child_state o.stat exec (w.fs SCRIPT_PATH))] }
    w.syslog .LOG_INFO ("WireGuard script started with PID: " ++ toString pid)

/-! ## `parameter_changed` (lines 200-218) -/

/-- The test `strncmp(s1, s2, n) == 0`: the first `n` characters agree. -/
def strncmp_eq (s1 s2 : String) (n : Nat) : Bool :=
  s1.data.take n == s2.data.take n

/-- The pointer `s + n`: the string `s` without its first `n` characters. -/
def advance (s : String) (n : Nat) : String :=
  String.mk (s.data.drop n)

/-- The call `strstr(haystack, needle)`: the tail of `haystack` starting at the first
occurrence of `needle`, or `none` for a NULL result. -/
def strstr : List Char → List Char → Option (List Char)
  | [], needle => if needle.isEmpty then some [] else none
  | c :: cs, needle => if needle.isPrefixOf (c :: cs) then some (c :: cs) else strstr cs needle

/-- Lines 204-208: the name without the prefix `root.wireguardconfig.`, when it has it. -/
def simple_name (name : String) : String :=
  let pfx := "root." ++ APP_NAME ++ "."
  if strncmp_eq name pfx pfx.length then advance name pfx.length else name

/-- The condition of line 211 under which the value is replaced in the log. -/
def sensitive (simple : String) : Bool :=
  (strstr simple.data "PrivateKey".data).isSome || (strstr simple.data "PeerPublicKey".data).isSome

/-- Outcomes of the calls made while handling one change. -/
structure ChangeOutcome where
  fopen_ok : Bool
  io : WriteOutcome
  start : StartOutcome

/-- Lines 200-218. -/
def parameter_changed (o : ChangeOutcome) (name value : String) (w : World) : World :=
  let w := w.syslog .LOG_INFO
    ("Parameter changed: " ++ simple_name name ++ " = " ++
      (if sensitive (simple_name name) then "(sensitive value)" else value))
  let w := update_config_file o.fopen_ok o.io w
  start_wireguard o.start w

/-! ## `main` (lines 220-284) -/

/-- The array `params` of lines 247-250. -/
def params : List String :=
  ["PrivateKey", "ListenPort", "Endpoint", "PeerPublicKey", "AllowedIPs", "ClientIP"]

/-- The call `snprintf(buf, size, ...)` producing `text`: at most `size - 1` characters
are stored. -/
def snprintf (size : Nat) (text : String) : String :=
  String.mk (text.data.take (size - 1))

/-- The `for` loop of lines 252-269 over the names still to be registered; `reg name`
is the outcome of `ax_parameter_register_callback` for `name`.  A successful call
adds `name` to the callbacks bound to `parameter_changed`. -/
def register_callbacks (reg : String → AxResult) : List String → World → World
  | [], w => w
  | p :: ps, w =>
    let w := w.call (.ax_parameter_register_callback p)
    match reg p with
    | .ok => register_callbacks reg ps { w with callbacks := w.callbacks ++ [p] }
    | .fail error =>
      let w := w.syslog .LOG_ERR
        ("Failed to register " ++ p ++ " callback: " ++ error.getD "unknown error")
      let full_name := snprintf 256 ("root." ++ APP_NAME ++ "." ++ p)
      let w := w.call (.ax_parameter_register_callback full_name)
      match reg full_name with
      | .ok => register_callbacks reg ps { w with callbacks := w.callbacks ++ [full_name] }
      | .fail _ =>
        register_callbacks reg ps
          (w.syslog .LOG_INFO ("Fallback " ++ p ++ " registration failed (this may be normal)"))

/-- Outcomes of the calls made by `main` before it enters the event loop. -/
structure MainOutcome where
  ax_parameter_new : AxResult
  copy : CopyOutcome
  fopen_ok : Bool
  io : WriteOutcome
  start : StartOutcome
  register : String → AxResult

/-- Where `main` stands after start-up: it left through `exit(code)`, or it is inside
`g_main_loop_run` waiting for events. -/
inductive Startup
  | exited (code : Nat) (w : World)
  | running (w : World)

/-- Lines 220-277: `main` up to the call of `g_main_loop_run`. -/
def main (o : MainOutcome) (w : World) : Startup :=
  let w := w.syslog .LOG_INFO "WireGuard config updater starting"
  match o.ax_parameter_new with
  | .fail error =>
    .exited 1 (w.syslog .LOG_ERR ("Failed to initialize parameters: " ++ error.getD "unknown error"))
  | .ok =>
    let w := copy_script_file o.copy w
    let w := update_config_file o.fopen_ok o.io w
    let w := start_wireguard o.start w
    let w := register_callbacks o.register params w
    .running
      (w.syslog .LOG_INFO "WireGuard config updater running. Waiting for parameter changes...")

/-! ## Vocabulary of the statements -/

/-- The pointer a field holds after its read, given the outcome of the read and the
default substituted on failure. -/
def obtained (dflt : String) (r : GetResult) : Option String :=
  match r with
  | .ok value => value
  | .fail _ => some dflt

/-- The value a field is written with, given the outcome of its read and its default. -/
def written (dflt : String) (r : GetResult) : String :=
  match r with
  | .ok (some v) => v
  | .ok none => dflt
  | .fail _ => dflt

/-- The summary logged after a successful write (lines 179-185). -/
def summaryLog (s : String → GetResult) : List LogEntry :=
  [⟨.LOG_INFO, "Updated configuration file with new parameters"⟩,
   ⟨.LOG_INFO, "private_key=" ++ (if nonempty (obtained "" (s "PrivateKey")) then "(set)" else "(empty)")⟩,
   ⟨.LOG_INFO, "listen_port=" ++ written "51820" (s "ListenPort")⟩,
   ⟨.LOG_INFO, "endpoint=" ++ (obtained "" (s "Endpoint")).getD "(empty)"⟩,
   ⟨.LOG_INFO,
    "peer_public_key=" ++ (if nonempty (obtained "" (s "PeerPublicKey")) then "(set)" else "(empty)")⟩,
   ⟨.LOG_INFO, "allowed_ips=" ++ written "0.0.0.0/0" (s "AllowedIPs")⟩,
   ⟨.LOG_INFO, "client_ip=" ++ written "10.0.0.2/24" (s "ClientIP")⟩]


/-- The log entries of one read: none on success, one error entry on failure. -/
def readLog (name : String) (r : GetResult) : List LogEntry :=
  match r with
  | .ok _ => []
  | .fail error => [⟨.LOG_ERR, "Failed to get " ++ name ++ ": " ++ error.getD "unknown error"⟩]

/-- The failure entries logged by the six reads, in order. -/
def readLogs (s : String → GetResult) : List LogEntry :=
  readLog "PrivateKey" (s "PrivateKey") ++ readLog "ListenPort" (s "ListenPort") ++
    readLog "Endpoint" (s "Endpoint") ++ readLog "PeerPublicKey" (s "PeerPublicKey") ++
    readLog "AllowedIPs" (s "AllowedIPs") ++ readLog "ClientIP" (s "ClientIP")

/-- One line of the configuration file. -/
def configLine (key value : String) : String := key ++ "=" ++ value ++ "\n"

/-- The six lines, in the order written, for the read outcomes of store `s`. -/
def configLines (s : String → GetResult) : List String :=
  [configLine "private_key" (written "" (s "PrivateKey")),
   configLine "listen_port" (written "51820" (s "ListenPort")),
   configLine "endpoint" (written "" (s "Endpoint")),
   configLine "peer_public_key" (written "" (s "PeerPublicKey")),
   configLine "allowed_ips" (written "0.0.0.0/0" (s "AllowedIPs")),
   configLine "client_ip" (written "10.0.0.2/24" (s "ClientIP"))]

/-- What reaches the file of each of the six lines, in the order written, under the
write outcomes `io`. -/
def landedLines (io : WriteOutcome) (s : String → GetResult) : List String :=
  [(io.fprintf 0).of (configLine "private_key" (written "" (s "PrivateKey"))),
   (io.fprintf 1).of (configLine "listen_port" (written "51820" (s "ListenPort"))),
   (io.fprintf 2).of (configLine "endpoint" (written "" (s "Endpoint"))),
   (io.fprintf 3).of (configLine "peer_public_key" (written "" (s "PeerPublicKey"))),
   (io.fprintf 4).of (configLine "allowed_ips" (written "0.0.0.0/0" (s "AllowedIPs"))),
   (io.fprintf 5).of (configLine "client_ip" (written "10.0.0.2/24" (s "ClientIP")))]

/-- Every one of the six lines reaches the file whole. -/
def allLanded (io : WriteOutcome) : Prop := ∀ i, i < 6 → io.fprintf i = .all

/-- The text of a file holding the lines `ls` one after the other and nothing else. -/
def concatLines (ls : List String) : String := ls.foldl (· ++ ·) ""

/-- Split a text at its newlines: the newline-terminated lines, without their
newline, and what follows the last newline. -/
def splitLines : List Char → List (List Char) × List Char
  | [] => ([], [])
  | c :: cs =>
    let r := splitLines cs
    if c = '\n' then ([] :: r.1, r.2)
    else
      match r.1 with
      | [] => ([], c :: r.2)
      | l :: ls => ((c :: l) :: ls, r.2)

/-- The data of the `write` calls in a sequence of calls, in order. -/
def writesOf (cs : List Call) : List String :=
  cs.filterMap fun c => match c with
    | .write _ d => some d
    | _ => none

/-- Every call of the outcome transfers a whole buffer of `bufsize` bytes. -/
def inFull (bufsize : Nat) (r : Nat → IoResult) : Prop :=
  ∀ i, ∃ n, r i = .upto n ∧ bufsize ≤ n


/-- Calls that only `copy_script_file` issues: the opens, reads, writes and closes of
the two script files and the `chmod` of the runtime script. -/
def Call.isScriptCall : Call → Bool
  | .open_rdonly _ => true
  | .open_wronly_creat_trunc _ _ => true
  | .read _ _ => true
  | .write _ _ => true
  | .close _ => true
  | .chmod p _ => decide (p = SCRIPT_PATH)
  | _ => false

/-- Calls that write the configuration file: its `fprintf`s, its `fclose`, its `chmod`. -/
def Call.isConfigWrite : Call → Bool
  | .fprintf p _ => decide (p = CONFIG_FILE)
  | .fclose p => decide (p = CONFIG_FILE)
  | .chmod p _ => decide (p = CONFIG_FILE)
  | _ => false

/-- The names passed to `ax_parameter_register_callback` in a sequence of calls, in order. -/
def registrationsOf (cs : List Call) : List String :=
  cs.filterMap fun c => match c with
    | .ax_parameter_register_callback n => some n
    | _ => none

/-- The name built at lines 263-264 for the fallback registration of `p`. -/
def full_name (p : String) : String := snprintf 256 ("root." ++ APP_NAME ++ "." ++ p)

/-- The registrations attempted for one name: the primary one, and the fallback when
the primary one fails. -/
def attempts (reg : String → AxResult) (p : String) : List String :=
  match reg p with
  | .ok => [p]
  | .fail _ => [p, full_name p]

/-- The names under which the callback ends up registered for one tracked name. -/
def bound (reg : String → AxResult) (p : String) : List String :=
  match reg p with
  | .ok => [p]
  | .fail _ =>
    match reg (full_name p) with
    | .ok => [full_name p]
    | .fail _ => []

/-- The lines of a text file: its newline-terminated lines, and the unterminated
rest after the last newline. -/
def fileLines (text : String) : List String × String :=
  ((splitLines text.data).1.map String.mk, String.mk (splitLines text.data).2)

/-- The six entries `key=value`, without their newline, for the read outcomes of store `s`. -/
def configEntries (s : String → GetResult) : List String :=
  ["private_key=" ++ written "" (s "PrivateKey"),
   "listen_port=" ++ written "51820" (s "ListenPort"),
   "endpoint=" ++ written "" (s "Endpoint"),
   "peer_public_key=" ++ written "" (s "PeerPublicKey"),
   "allowed_ips=" ++ written "0.0.0.0/0" (s "AllowedIPs"),
   "client_ip=" ++ written "10.0.0.2/24" (s "ClientIP")]

/-- The six values written, in order, for the read outcomes of store `s`. -/
def configValues (s : String → GetResult) : List String :=
  [written "" (s "PrivateKey"), written "51820" (s "ListenPort"), written "" (s "Endpoint"),
   written "" (s "PeerPublicKey"), written "0.0.0.0/0" (s "AllowedIPs"),
   written "10.0.0.2/24" (s "ClientIP")]

/-- Two read outcomes of a key field that are the same, or are both successful reads
of a non-empty value. -/
def keyAgree (r1 r2 : GetResult) : Prop :=
  r1 = r2 ∨ ∃ a b : String, 0 < a.length ∧ 0 < b.length ∧ r1 = .ok (some a) ∧ r2 = .ok (some b)

/-! ## Concrete inputs -/

/-- A world with an empty file system and a store in which every read fails. -/
def emptyWorld : World where
  store := fun _ => .fail none
  fs := fun _ => none
  umask := 0o022
  log := []
  calls := []
  children := []
  callbacks := []

/-- A store whose private key holds a newline; all other reads fail. -/
def newlineWorld : World :=
  { emptyWorld with store := fun n => if n = "PrivateKey" then .ok (some "a\nb") else .fail none }

/-- The world `main` has reached, whether it exited or is running. -/
def Startup.world : Startup → World
  | .exited _ w => w
  | .running w => w

/-- Whether `main` has reached the event loop. -/
def Startup.isRunning : Startup → Bool
  | .exited _ _ => false
  | .running _ => true

/-- A world in which the runtime script already exists with contents of its own, next
to the bundled source. -/
def staleScriptWorld : World :=
  { emptyWorld with
    fs := fun p =>
      if p = SCRIPT_SOURCE then some ⟨"new", 0o644⟩
      else if p = SCRIPT_PATH then some ⟨"old", 0o600⟩
      else none }

/-- A world with the bundled source and no runtime script. -/
def freshWorld : World :=
  { emptyWorld with fs := fun p => if p = SCRIPT_SOURCE then some ⟨"new", 0o644⟩ else none }

/-- A world whose bundled source holds 5000 bytes, more than one buffer and not a
multiple of the buffer size. -/
def longSourceWorld : World :=
  { emptyWorld with
    fs := fun p =>
      if p = SCRIPT_SOURCE then some ⟨String.mk (List.replicate 5000 'x'), 0o644⟩ else none }

/-- Every call of `copy_script_file` succeeds and transfers whole buffers. -/
def copyOk : CopyOutcome where
  open_source := .ok
  open_dest := .ok
  read := fun _ => .upto 4096
  write := fun _ => .upto 4096
  errno := "Success"
  chmod := .ok

/-- As `copyOk`, except that the final `chmod` fails. -/
def copyChmodFails : CopyOutcome :=
  { copyOk with chmod := .err "Operation not permitted" }

/-- The `stat` is not refused, and the fork succeeds with pid 42 and a child whose
`execl` is not refused. -/
def startOk : StartOutcome where
  stat := .ok
  copy := copyOk
  fork := .child 42 .ok

/-- Every line reaches the configuration file and its `chmod` succeeds. -/
def writeOk : WriteOutcome where
  fprintf := fun _ => .all
  chmod := .ok

/-- Every call of `main` succeeds. -/
def mainOk : MainOutcome where
  ax_parameter_new := .ok
  copy := copyOk
  fopen_ok := true
  io := writeOk
  start := startOk
  register := fun _ => .ok

/-- Registration outcomes of scenario 4: the primary registration of AllowedIPs
fails, every other registration succeeds. -/
def mainAllowedIPsFallback : MainOutcome :=
  { mainOk with register := fun n => if n = "AllowedIPs" then .fail none else .ok }

/-- Every one of the twelve registrations fails. -/
def mainNoRegistration : MainOutcome :=
  { mainOk with register := fun _ => .fail none }

/-- The store of scenario 1 after the change: ListenPort reads 51821, the other
fields hold plain values. -/
def listenPortWorld : World :=
  { staleScriptWorld with
    store := fun n =>
      if n = "ListenPort" then .ok (some "51821")
      else if n = "PrivateKey" then .ok (some "cHJpdmF0ZQ==")
      else if n = "PeerPublicKey" then .ok (some "cHVibGlj")
      else .fail none }

/-- The open of the configuration file and every call of the start succeed. -/
def changeOk : ChangeOutcome where
  fopen_ok := true
  io := writeOk
  start := startOk

/-- The store of `listenPortWorld` with other, equally non-empty, keys. -/
def otherKeys : String → GetResult := fun n =>
  if n = "ListenPort" then .ok (some "51821")
  else if n = "PrivateKey" then .ok (some "b3RoZXI=")
  else if n = "PeerPublicKey" then .ok (some "cGVlcjI=")
  else .fail none

/-- The world `start_wireguard` hands to `fork`: that of lines 79-86 run from `w`. -/
def provisioned (o : StartOutcome) (w : World) : World :=
  let w := w.syslog .LOG_INFO "Starting WireGuard VPN script"
  let w := w.call (.stat SCRIPT_PATH)
  match stat_result o.stat (w.fs SCRIPT_PATH) with
  | .err _ =>
    copy_script_file (o.copy.after o.stat)
      (w.syslog .LOG_INFO ("Script not found at " ++ SCRIPT_PATH ++ ", copying from lib folder"))
  | .ok => w

/-- The entry the parent logs after the `fork` (lines 90-92 and 102). -/
def forkLog (r : ForkResult) : List LogEntry :=
  match r with
  | .fail e => [⟨.LOG_ERR, "Failed to fork for WireGuard script: " ++ e⟩]
  | .child pid _ => [⟨.LOG_INFO, "WireGuard script started with PID: " ++ toString pid⟩]

/-- The child a `fork` adds, after a `stat` of outcome `st`, the runtime script being `f`. -/
def forkChildren (r : ForkResult) (st : Sys) (f : Option File) : List Child :=
  match r with
  | .fail _ => []
  | .child pid exec => [⟨pid, child_state st exec f⟩]

/-- A full disk: no byte of any line reaches the configuration file. -/
def fullDisk : WriteOutcome where
  fprintf := fun _ => .first 0
  chmod := .ok

/-- The lines reach the configuration file, and its `chmod` is refused. -/
def chmodRefused : WriteOutcome where
  fprintf := fun _ => .all
  chmod := .err "Operation not permitted"

/-- A world whose configuration file exists with mode 0666. -/
def sharedConfigWorld : World :=
  { emptyWorld with fs := fun p => if p = CONFIG_FILE then some ⟨"stale", 0o666⟩ else none }

/-- The world of scenario 1 after the change: the runtime script is installed and
executable, ListenPort reads 51821 and the keys hold plain values. -/
def scenarioWorld : World :=
  { emptyWorld with
    store := fun n =>
      if n = "ListenPort" then .ok (some "51821")
      else if n = "PrivateKey" then .ok (some "cHJpdmF0ZQ==")
      else if n = "PeerPublicKey" then .ok (some "cHVibGlj")
      else .fail none
    fs := fun p =>
      if p = SCRIPT_SOURCE then some ⟨"new", 0o644⟩
      else if p = SCRIPT_PATH then some ⟨"new", 0o755⟩
      else none }

/-- The world of scenario 1 with a private key that holds a newline. -/
def scenarioNewlineWorld : World :=
  { scenarioWorld with
    store := fun n =>
      if n = "ListenPort" then .ok (some "51821")
      else if n = "PrivateKey" then .ok (some "a\nb")
      else .fail none }

/-- The open of the configuration file and the fork are refused. -/
def changeRefused : ChangeOutcome where
  fopen_ok := false
  io := writeOk
  start := { startOk with fork := .fail "Resource temporarily unavailable" }

/-- Every call succeeds, except that no byte reaches the configuration file. -/
def changeFullDisk : ChangeOutcome where
  fopen_ok := true
  io := fullDisk
  start := startOk

/-- The `stat` of the runtime script is refused. -/
def statRefused : StartOutcome :=
  { startOk with stat := .err "Permission denied" }

/-! ## Frame lemmas for the primitive effects -/

namespace World

@[simp] theorem syslog_store (w : World) (p : Priority) (m : String) : (w.syslog p m).store = w.store := rfl
@[simp] theorem syslog_fs (w : World) (p : Priority) (m : String) : (w.syslog p m).fs = w.fs := rfl
@[simp] theorem syslog_umask (w : World) (p : Priority) (m : String) : (w.syslog p m).umask = w.umask := rfl
@[simp] theorem syslog_log (w : World) (p : Priority) (m : String) :
    (w.syslog p m).log = w.log ++ [⟨p, m⟩] := rfl
@[simp] theorem syslog_calls (w : World) (p : Priority) (m : String) : (w.syslog p m).calls = w.calls := rfl
@[simp] theorem syslog_children (w : World) (p : Priority) (m : String) :
    (w.syslog p m).children = w.children := rfl
@[simp] theorem syslog_callbacks (w : World) (p : Priority) (m : String) :
    (w.syslog p m).callbacks = w.callbacks := rfl

@[simp] theorem call_store (w : World) (c : Call) : (w.call c).store = w.store := rfl
@[simp] theorem call_fs (w : World) (c : Call) : (w.call c).fs = w.fs := rfl
@[simp] theorem call_umask (w : World) (c : Call) : (w.call c).umask = w.umask := rfl
@[simp] theorem call_log (w : World) (c : Call) : (w.call c).log = w.log := rfl
@[simp] theorem call_calls (w : World) (c : Call) : (w.call c).calls = w.calls ++ [c] := rfl
@[simp] theorem call_children (w : World) (c : Call) : (w.call c).children = w.children := rfl
@[simp] theorem call_callbacks (w : World) (c : Call) : (w.call c).callbacks = w.callbacks := rfl

@[simp] theorem setFile_store (w : World) (p : String) (f : File) : (w.setFile p f).store = w.store := rfl
@[simp] theorem setFile_fs (w : World) (p : String) (f : File) :
    (w.setFile p f).fs = fun q => if q = p then some f else w.fs q := rfl
@[simp] theorem setFile_umask (w : World) (p : String) (f : File) : (w.setFile p f).umask = w.umask := rfl
@[simp] theorem setFile_log (w : World) (p : String) (f : File) : (w.setFile p f).log = w.log := rfl
@[simp] theorem setFile_calls (w : World) (p : String) (f : File) : (w.setFile p f).calls = w.calls := rfl
@[simp] theorem setFile_children (w : World) (p : String) (f : File) :
    (w.setFile p f).children = w.children := rfl
@[simp] theorem setFile_callbacks (w : World) (p : String) (f : File) :
    (w.setFile p f).callbacks = w.callbacks := rfl

theorem truncate_fs (w : World) (p : String) (m : Nat) :
    (w.truncate p m).fs = fun q =>
      if q = p then some ⟨"", ((w.fs p).map File.mode).getD (createMode w.umask m)⟩ else w.fs q := by
  unfold truncate
  cases h : w.fs p <;> simp

theorem append_fs (w : World) (p t : String) :
    (w.append p t).fs = fun q =>
      if q = p then (w.fs p).map (fun f => { f with content := f.content ++ t }) else w.fs q := by
  unfold append
  cases h : w.fs p
  · funext q
    by_cases hq : q = p <;> simp [hq, h]
  · simp

theorem setMode_fs (w : World) (p : String) (m : Nat) :
    (w.setMode p m).fs = fun q =>
      if q = p then (w.fs p).map (fun f => { f with mode := m }) else w.fs q := by
  unfold setMode
  cases h : w.fs p
  · funext q
    by_cases hq : q = p <;> simp [hq, h]
  · simp

@[simp] theorem truncate_store (w : World) (p : String) (m : Nat) : (w.truncate p m).store = w.store := by
  unfold truncate; split <;> rfl
@[simp] theorem truncate_umask (w : World) (p : String) (m : Nat) : (w.truncate p m).umask = w.umask := by
  unfold truncate; split <;> rfl
@[simp] theorem truncate_log (w : World) (p : String) (m : Nat) : (w.truncate p m).log = w.log := by
  unfold truncate; split <;> rfl
@[simp] theorem truncate_calls (w : World) (p : String) (m : Nat) : (w.truncate p m).calls = w.calls := by
  unfold truncate; split <;> rfl
@[simp] theorem truncate_children (w : World) (p : String) (m : Nat) :
    (w.truncate p m).children = w.children := by
  unfold truncate; split <;> rfl
@[simp] theorem truncate_callbacks (w : World) (p : String) (m : Nat) :
    (w.truncate p m).callbacks = w.callbacks := by
  unfold truncate; split <;> rfl

@[simp] theorem append_store (w : World) (p t : String) : (w.append p t).store = w.store := by
  unfold append; split <;> rfl
@[simp] theorem append_umask (w : World) (p t : String) : (w.append p t).umask = w.umask := by
  unfold append; split <;> rfl
@[simp] theorem append_log (w : World) (p t : String) : (w.append p t).log = w.log := by
  unfold append; split <;> rfl
@[simp] theorem append_calls (w : World) (p t : String) : (w.append p t).calls = w.calls := by
  unfold append; split <;> rfl
@[simp] theorem append_children (w : World) (p t : String) : (w.append p t).children = w.children := by
  unfold append; split <;> rfl
@[simp] theorem append_callbacks (w : World) (p t : String) : (w.append p t).callbacks = w.callbacks := by
  unfold append; split <;> rfl

@[simp] theorem setMode_store (w : World) (p : String) (m : Nat) : (w.setMode p m).store = w.store := by
  unfold setMode; split <;> rfl
@[simp] theorem setMode_umask (w : World) (p : String) (m : Nat) : (w.setMode p m).umask = w.umask := by
  unfold setMode; split <;> rfl
@[simp] theorem setMode_log (w : World) (p : String) (m : Nat) : (w.setMode p m).log = w.log := by
  unfold setMode; split <;> rfl
@[simp] theorem setMode_calls (w : World) (p : String) (m : Nat) : (w.setMode p m).calls = w.calls := by
  unfold setMode; split <;> rfl
@[simp] theorem setMode_children (w : World) (p : String) (m : Nat) :
    (w.setMode p m).children = w.children := by
  unfold setMode; split <;> rfl
@[simp] theorem setMode_callbacks (w : World) (p : String) (m : Nat) :
    (w.setMode p m).callbacks = w.callbacks := by
  unfold setMode; split <;> rfl

end World

/-! ## What `update_config_file` reads and writes -/

@[simp] theorem get_parameter_store (n d : String) (w : World) : (get_parameter n d w).2.store = w.store := by
  unfold get_parameter; simp only []; split <;> rfl
@[simp] theorem get_parameter_fs (n d : String) (w : World) : (get_parameter n d w).2.fs = w.fs := by
  unfold get_parameter; simp only []; split <;> rfl
@[simp] theorem get_parameter_umask (n d : String) (w : World) : (get_parameter n d w).2.umask = w.umask := by
  unfold get_parameter; simp only []; split <;> rfl
@[simp] theorem get_parameter_children (n d : String) (w : World) :
    (get_parameter n d w).2.children = w.children := by
  unfold get_parameter; simp only []; split <;> rfl
@[simp] theorem get_parameter_callbacks (n d : String) (w : World) :
    (get_parameter n d w).2.callbacks = w.callbacks := by
  unfold get_parameter; simp only []; split <;> rfl
@[simp] theorem get_parameter_calls (n d : String) (w : World) :
    (get_parameter n d w).2.calls = w.calls ++ [.ax_parameter_get n] := by
  unfold get_parameter; simp only []; split <;> rfl
@[simp] theorem get_parameter_log (n d : String) (w : World) :
    (get_parameter n d w).2.log = w.log ++ readLog n (w.store n) := by
  unfold get_parameter readLog
  simp only [World.call_store]
  cases w.store n <;> simp
@[simp] theorem get_parameter_fst (n d : String) (w : World) :
    (get_parameter n d w).1 = obtained d (w.store n) := by
  unfold get_parameter obtained
  simp only [World.call_store]
  cases w.store n <;> simp

@[simp] theorem obtained_getD (d : String) (r : GetResult) : (obtained d r).getD d = written d r := by
  unfold obtained written
  cases r with
  | ok v => cases v <;> simp
  | fail e => simp

theorem update_config_file_fs_ok (io : WriteOutcome) (w : World) :
    (update_config_file true io w).fs =
      fun q => if q = CONFIG_FILE then
        some ⟨concatLines (landedLines io w.store),
          match io.chmod with
          | .ok => 0o600
          | .err _ => ((w.fs CONFIG_FILE).map File.mode).getD (World.createMode w.umask 0o666)⟩
      else w.fs q := by
  funext q
  by_cases h : q = CONFIG_FILE <;> cases hc : io.chmod <;>
  simp [update_config_file, fprintf, World.truncate_fs, World.append_fs, World.setMode_fs,
    landedLines, concatLines, configLine, h, hc, String.append_assoc]

theorem landedLines_all (io : WriteOutcome) (s : String → GetResult) (h : allLanded io) :
    landedLines io s = configLines s := by
  unfold landedLines configLines
  rw [h 0 (by decide), h 1 (by decide), h 2 (by decide), h 3 (by decide), h 4 (by decide),
    h 5 (by decide)]
  rfl

theorem update_config_file_fs_fail (io : WriteOutcome) (w : World) :
    (update_config_file false io w).fs = w.fs := by
  simp [update_config_file]

theorem update_config_file_calls (b : Bool) (io : WriteOutcome) (w : World) :
    (update_config_file b io w).calls =
      w.calls ++ params.map Call.ax_parameter_get ++ [Call.fopen CONFIG_FILE "w"] ++
        (if b then (configLines w.store).map (Call.fprintf CONFIG_FILE) ++
          [Call.fclose CONFIG_FILE, Call.chmod CONFIG_FILE 0o600] else []) := by
  cases b <;> cases hc : io.chmod <;>
  simp [update_config_file, fprintf, configLines, configLine, params, hc]

theorem update_config_file_log (b : Bool) (io : WriteOutcome) (w : World) :
    (update_config_file b io w).log =
      w.log ++ readLogs w.store ++
        (if b then summaryLog w.store else [⟨.LOG_ERR, "Failed to open config file for writing"⟩]) := by
  cases b <;> cases hc : io.chmod <;>
  simp [update_config_file, fprintf, readLogs, summaryLog, hc]

@[simp] theorem update_config_file_store (b : Bool) (io : WriteOutcome) (w : World) :
    (update_config_file b io w).store = w.store := by
  cases b <;> cases hc : io.chmod <;> simp [update_config_file, fprintf, hc]

@[simp] theorem update_config_file_umask (b : Bool) (io : WriteOutcome) (w : World) :
    (update_config_file b io w).umask = w.umask := by
  cases b <;> cases hc : io.chmod <;> simp [update_config_file, fprintf, hc]

@[simp] theorem update_config_file_children (b : Bool) (io : WriteOutcome) (w : World) :
    (update_config_file b io w).children = w.children := by
  cases b <;> cases hc : io.chmod <;> simp [update_config_file, fprintf, hc]

@[simp] theorem update_config_file_callbacks (b : Bool) (io : WriteOutcome) (w : World) :
    (update_config_file b io w).callbacks = w.callbacks := by
  cases b <;> cases hc : io.chmod <;> simp [update_config_file, fprintf, hc]

theorem update_config_file_fs_other (b : Bool) (io : WriteOutcome) (w : World) (q : String)
    (h : q ≠ CONFIG_FILE) : (update_config_file b io w).fs q = w.fs q := by
  cases b
  · rw [update_config_file_fs_fail]
  · rw [update_config_file_fs_ok]; simp [h]

/-! ## The copy loop -/

theorem copy_loop_isSome (rd wr : Nat → IoResult) (errno : String) (bs : Nat) :
    ∀ (fuel i : Nat) (rem : List Char) (w : World), rem.length < fuel →
      (copy_loop rd wr errno bs fuel i rem w).isSome := by
  intro fuel
  induction fuel with
  | zero => intro i rem w h; omega
  | succ fuel ih =>
    intro i rem w h
    unfold copy_loop
    simp only []
    split
    · rfl
    · rename_i n hn
      split
      · rename_i hpos
        split
        · rfl
        · apply ih
          have hlen : (rem.take (min n bs)).length = min (min n bs) rem.length :=
            List.length_take _ _
          simp only [List.length_drop]
          omega
      · rfl

theorem copy_loop_frame (rd wr : Nat → IoResult) (errno : String) (bs : Nat) :
    ∀ (fuel i : Nat) (rem : List Char) (w : World) (e : LoopExit) (w' : World),
      copy_loop rd wr errno bs fuel i rem w = some (e, w') →
      w'.log = w.log ∧ w'.store = w.store ∧ w'.umask = w.umask ∧ w'.children = w.children ∧
        w'.callbacks = w.callbacks ∧ ∀ q, q ≠ SCRIPT_PATH → w'.fs q = w.fs q := by
  intro fuel
  induction fuel with
  | zero => intro i rem w e w' h; simp [copy_loop] at h
  | succ fuel ih =>
    intro i rem w e w' h
    unfold copy_loop at h
    simp only [] at h
    split at h
    · simp only [Option.some.injEq, Prod.mk.injEq] at h
      obtain ⟨-, rfl⟩ := h
      simp
    · split at h
      · split at h
        · simp only [Option.some.injEq, Prod.mk.injEq] at h
          obtain ⟨-, rfl⟩ := h
          simp only [World.append_log, World.call_log, World.append_store, World.call_store,
            World.append_umask, World.call_umask, World.append_children, World.call_children,
            World.append_callbacks, World.call_callbacks, true_and]
          intro q hq
          simp [World.append_fs, hq]
        · have := ih _ _ _ _ _ h
          obtain ⟨h1, h2, h3, h4, h5, h6⟩ := this
          refine ⟨by simp [h1], by simp [h2], by simp [h3], by simp [h4], by simp [h5], ?_⟩
          intro q hq
          rw [h6 q hq]
          simp [World.append_fs, hq]
      · simp only [Option.some.injEq, Prod.mk.injEq] at h
        obtain ⟨-, rfl⟩ := h
        simp

theorem copy_loop_exit_congr (rd wr : Nat → IoResult) (errno : String) (bs : Nat) :
    ∀ (fuel i : Nat) (rem : List Char) (w1 w2 : World),
      (copy_loop rd wr errno bs fuel i rem w1).map Prod.fst =
        (copy_loop rd wr errno bs fuel i rem w2).map Prod.fst := by
  intro fuel
  induction fuel with
  | zero => intro i rem w1 w2; simp [copy_loop]
  | succ fuel ih =>
    intro i rem w1 w2
    unfold copy_loop
    simp only []
    split
    · rfl
    · split
      · split
        · rfl
        · apply ih
      · rfl

theorem copy_loop_full (rd wr : Nat → IoResult) (errno : String) (bs : Nat) (hbs : 0 < bs)
    (hrd : inFull bs rd) (hwr : inFull bs wr) :
    ∀ (fuel i : Nat) (rem : List Char) (w : World) (f : File), rem.length < fuel →
      w.fs SCRIPT_PATH = some f →
      ∃ w' chunks, copy_loop rd wr errno bs fuel i rem w = some (.finished, w') ∧
        w'.fs SCRIPT_PATH = some ⟨f.content ++ String.mk rem, f.mode⟩ ∧
        writesOf w'.calls = writesOf w.calls ++ chunks ∧
        (chunks.map String.data).flatten = rem ∧
        ∀ c ∈ chunks, 0 < c.data.length ∧ c.data.length ≤ bs := by
  intro fuel
  induction fuel with
  | zero => intro i rem w f h; omega
  | succ fuel ih =>
    intro i rem w f h hf
    obtain ⟨n, hn, hnb⟩ := hrd i
    obtain ⟨m, hm, hmb⟩ := hwr i
    unfold copy_loop
    simp only [hn, hm, Nat.min_eq_right hnb]
    cases rem with
    | nil =>
      refine ⟨w.call (.read SCRIPT_SOURCE bs), [], ?_⟩
      simp [hf, writesOf]
    | cons c cs =>
      have hlen : 0 < ((c :: cs).take bs).length := by
        simp only [List.length_take, List.length_cons]; omega
      have hle : ((c :: cs).take bs).length ≤ bs := by
        simp only [List.length_take]; omega
      have htake : ((c :: cs).take bs).take m = (c :: cs).take bs :=
        List.take_of_length_le (by omega)
      rw [if_pos hlen, htake]
      simp only [ne_eq, not_true_eq_false, if_false]
      have hf2 : (((w.call (.read SCRIPT_SOURCE bs)).call
          (.write SCRIPT_PATH (String.mk ((c :: cs).take bs)))).append SCRIPT_PATH
            (String.mk ((c :: cs).take bs))).fs SCRIPT_PATH =
          some ⟨f.content ++ String.mk ((c :: cs).take bs), f.mode⟩ := by
        simp [World.append_fs, hf]
      have hfuel : ((c :: cs).drop ((c :: cs).take bs).length).length < fuel := by
        simp only [List.length_drop, List.length_cons] at h ⊢; omega
      obtain ⟨w', chunks, h1, h2, h3, h4, h5⟩ := ih (i + 1) _ _ _ hfuel hf2
      have hcat : (c :: cs).take bs ++ (c :: cs).drop ((c :: cs).take bs).length = c :: cs := by
        have hl : ((c :: cs).take bs).length = min bs (c :: cs).length := List.length_take _ _
        by_cases hb : bs ≤ (c :: cs).length
        · rw [hl, Nat.min_eq_left hb, List.take_append_drop]
        · have hb2 : (c :: cs).length ≤ bs := by omega
          rw [hl, Nat.min_eq_right hb2, List.take_of_length_le hb2, List.drop_length, List.append_nil]
      have hstr : String.mk ((c :: cs).take bs) ++
          String.mk ((c :: cs).drop ((c :: cs).take bs).length) = String.mk (c :: cs) := by
        apply String.ext
        simp only [String.data_append]
        exact hcat
      refine ⟨w', String.mk ((c :: cs).take bs) :: chunks, h1, ?_, ?_, ?_, ?_⟩
      · rw [h2, String.append_assoc, hstr]
      · rw [h3]
        simp [writesOf, List.filterMap_append]
      · simp only [List.map_cons, List.flatten_cons, h4]
        exact hcat
      · intro x hx
        rcases List.mem_cons.mp hx with rfl | hx
        · exact ⟨hlen, hle⟩
        · exact h5 x hx

theorem copy_loop_calls (rd wr : Nat → IoResult) (errno : String) (bs : Nat) :
    ∀ (fuel i : Nat) (rem : List Char) (w : World) (e : LoopExit) (w' : World),
      copy_loop rd wr errno bs fuel i rem w = some (e, w') →
      ∃ new, w'.calls = w.calls ++ new ∧ ∀ c ∈ new, Call.isScriptCall c = true := by
  intro fuel
  induction fuel with
  | zero => intro i rem w e w' h; simp [copy_loop] at h
  | succ fuel ih =>
    intro i rem w e w' h
    unfold copy_loop at h
    simp only [] at h
    split at h
    · simp only [Option.some.injEq, Prod.mk.injEq] at h
      obtain ⟨-, rfl⟩ := h
      exact ⟨[.read SCRIPT_SOURCE bs], by simp, by simp [Call.isScriptCall]⟩
    · rename_i n hn
      split at h
      · split at h
        · simp only [Option.some.injEq, Prod.mk.injEq] at h
          obtain ⟨-, rfl⟩ := h
          exact ⟨[.read SCRIPT_SOURCE bs, .write SCRIPT_PATH (String.mk (rem.take (min n bs)))],
            by simp, by simp [Call.isScriptCall]⟩
        · obtain ⟨new, h1, h2⟩ := ih _ _ _ _ _ h
          refine ⟨.read SCRIPT_SOURCE bs :: .write SCRIPT_PATH (String.mk (rem.take (min n bs))) :: new,
            ?_, ?_⟩
          · rw [h1]; simp
          · intro c hc
            simp only [List.mem_cons] at hc
            rcases hc with rfl | rfl | hc
            · rfl
            · rfl
            · exact h2 c hc
      · simp only [Option.some.injEq, Prod.mk.injEq] at h
        obtain ⟨-, rfl⟩ := h
        exact ⟨[.read SCRIPT_SOURCE bs], by simp, by simp [Call.isScriptCall]⟩

theorem copy_script_file_frame (o : CopyOutcome) (w : World) :
    (copy_script_file o w).store = w.store ∧ (copy_script_file o w).umask = w.umask ∧
      (copy_script_file o w).children = w.children ∧
      (copy_script_file o w).callbacks = w.callbacks ∧
      ∀ q, q ≠ SCRIPT_PATH → (copy_script_file o w).fs q = w.fs q := by
  unfold copy_script_file
  simp only []
  split
  · simp
  · split
    · simp
    · split
      · simp [World.truncate_fs]
        intro q hq; simp [hq]
      · rename_i e w' h
        obtain ⟨h1, h2, h3, h4, h5, h6⟩ := copy_loop_frame _ _ _ _ _ _ _ _ _ _ h
        simp only [World.truncate_store, World.call_store, World.syslog_store] at h2
        simp only [World.truncate_umask, World.call_umask, World.syslog_umask] at h3
        simp only [World.truncate_children, World.call_children, World.syslog_children] at h4
        simp only [World.truncate_callbacks, World.call_callbacks, World.syslog_callbacks] at h5
        refine ⟨by simp [h2], by simp [h3], by simp [h4], by simp [h5], ?_⟩
        intro q hq
        simp [h6 q hq, World.truncate_fs, hq]
      · rename_i w' h
        obtain ⟨h1, h2, h3, h4, h5, h6⟩ := copy_loop_frame _ _ _ _ _ _ _ _ _ _ h
        simp only [World.truncate_store, World.call_store, World.syslog_store] at h2
        simp only [World.truncate_umask, World.call_umask, World.syslog_umask] at h3
        simp only [World.truncate_children, World.call_children, World.syslog_children] at h4
        simp only [World.truncate_callbacks, World.call_callbacks, World.syslog_callbacks] at h5
        split
        · refine ⟨by simp [h2], by simp [h3], by simp [h4], by simp [h5], ?_⟩
          intro q hq
          simp [h6 q hq, World.truncate_fs, hq]
        · refine ⟨by simp [h2], by simp [h3], by simp [h4], by simp [h5], ?_⟩
          intro q hq
          simp [h6 q hq, World.truncate_fs, World.setMode_fs, hq]

theorem copy_script_file_calls (o : CopyOutcome) (w : World) :
    ∃ rest, (copy_script_file o w).calls = w.calls ++ Call.open_rdonly SCRIPT_SOURCE :: rest ∧
      ∀ c ∈ rest, Call.isScriptCall c = true := by
  unfold copy_script_file
  simp only []
  split
  · exact ⟨[], by simp, by simp⟩
  · split
    · exact ⟨[.open_wronly_creat_trunc SCRIPT_PATH 0o755, .close SCRIPT_SOURCE], by simp,
        by simp [Call.isScriptCall]⟩
    · split
      · exact ⟨[.open_wronly_creat_trunc SCRIPT_PATH 0o755], by simp, by simp [Call.isScriptCall]⟩
      · rename_i e w' h
        obtain ⟨new, h1, h2⟩ := copy_loop_calls _ _ _ _ _ _ _ _ _ _ h
        refine ⟨.open_wronly_creat_trunc SCRIPT_PATH 0o755 :: new ++
          [.close SCRIPT_SOURCE, .close SCRIPT_PATH], by simp [h1], ?_⟩
        intro c hc
        simp only [List.cons_append, List.mem_cons, List.mem_append, List.mem_singleton,
          List.not_mem_nil, or_false] at hc
        rcases hc with rfl | hc | rfl | rfl
        · rfl
        · exact h2 c hc
        · rfl
        · rfl
      · rename_i w' h
        obtain ⟨new, h1, h2⟩ := copy_loop_calls _ _ _ _ _ _ _ _ _ _ h
        have hall : ∀ c ∈ Call.open_wronly_creat_trunc SCRIPT_PATH 0o755 :: new ++
            [.close SCRIPT_SOURCE, .close SCRIPT_PATH, .chmod SCRIPT_PATH 0o755],
            Call.isScriptCall c = true := by
          intro c hc
          simp only [List.cons_append, List.mem_cons, List.mem_append, List.mem_singleton,
            List.not_mem_nil, or_false] at hc
          rcases hc with rfl | hc | rfl | rfl | rfl
          · rfl
          · exact h2 c hc
          · rfl
          · rfl
          · simp [Call.isScriptCall]
        split
        · exact ⟨_, by simp [h1], hall⟩
        · exact ⟨_, by simp [h1], hall⟩

theorem copy_script_file_log_congr (o : CopyOutcome) (w1 w2 : World) (pre : List LogEntry)
    (hlog : w1.log = pre ++ w2.log) (hsrc : w1.fs SCRIPT_SOURCE = w2.fs SCRIPT_SOURCE) :
    (copy_script_file o w1).log = pre ++ (copy_script_file o w2).log := by
  unfold copy_script_file
  simp only [World.call_fs, World.syslog_fs, hsrc]
  cases o.open_source with
  | err e => simp [hlog]
  | ok =>
    cases w2.fs SCRIPT_SOURCE with
    | none => simp [hlog]
    | some src =>
      simp only []
      cases o.open_dest with
      | err e => simp [hlog]
      | ok =>
        simp only []
        have hc := copy_loop_exit_congr o.read o.write o.errno 4096 (src.content.data.length + 1) 0
          src.content.data
          ((((w1.syslog .LOG_INFO ("Copying script from " ++ SCRIPT_SOURCE ++ " to " ++ SCRIPT_PATH)).call
            (.open_rdonly SCRIPT_SOURCE)).call (.open_wronly_creat_trunc SCRIPT_PATH 0o755)).truncate
              SCRIPT_PATH 0o755)
          ((((w2.syslog .LOG_INFO ("Copying script from " ++ SCRIPT_SOURCE ++ " to " ++ SCRIPT_PATH)).call
            (.open_rdonly SCRIPT_SOURCE)).call (.open_wronly_creat_trunc SCRIPT_PATH 0o755)).truncate
              SCRIPT_PATH 0o755)
        cases h1 : copy_loop o.read o.write o.errno 4096 (src.content.data.length + 1) 0
          src.content.data
          ((((w1.syslog .LOG_INFO ("Copying script from " ++ SCRIPT_SOURCE ++ " to " ++ SCRIPT_PATH)).call
            (.open_rdonly SCRIPT_SOURCE)).call (.open_wronly_creat_trunc SCRIPT_PATH 0o755)).truncate
              SCRIPT_PATH 0o755) with
        | none =>
          rw [h1] at hc
          cases h2 : copy_loop o.read o.write o.errno 4096 (src.content.data.length + 1) 0
            src.content.data
            ((((w2.syslog .LOG_INFO ("Copying script from " ++ SCRIPT_SOURCE ++ " to " ++ SCRIPT_PATH)).call
              (.open_rdonly SCRIPT_SOURCE)).call (.open_wronly_creat_trunc SCRIPT_PATH 0o755)).truncate
                SCRIPT_PATH 0o755) with
          | none => simp [hlog]
          | some r2 => rw [h2] at hc; simp at hc
        | some r1 =>
          rw [h1] at hc
          cases h2 : copy_loop o.read o.write o.errno 4096 (src.content.data.length + 1) 0
            src.content.data
            ((((w2.syslog .LOG_INFO ("Copying script from " ++ SCRIPT_SOURCE ++ " to " ++ SCRIPT_PATH)).call
              (.open_rdonly SCRIPT_SOURCE)).call (.open_wronly_creat_trunc SCRIPT_PATH 0o755)).truncate
                SCRIPT_PATH 0o755) with
          | none => rw [h2] at hc; simp at hc
          | some r2 =>
            rw [h2] at hc
            obtain ⟨e1, u1⟩ := r1
            obtain ⟨e2, u2⟩ := r2
            simp only [Option.map_some', Option.some.injEq] at hc
            subst hc
            have f1 := (copy_loop_frame _ _ _ _ _ _ _ _ _ _ h1).1
            have f2 := (copy_loop_frame _ _ _ _ _ _ _ _ _ _ h2).1
            simp only [World.truncate_log, World.call_log, World.syslog_log] at f1 f2
            cases e1 with
            | write_failed e => simp [f1, f2, hlog]
            | finished =>
              cases o.chmod <;> simp [f1, f2, hlog]

theorem copy_script_file_fs_unchanged (o : CopyOutcome) (w : World)
    (h : o.open_source ≠ .ok ∨ w.fs SCRIPT_SOURCE = none ∨ o.open_dest ≠ .ok) :
    (copy_script_file o w).fs = w.fs := by
  unfold copy_script_file
  simp only [World.call_fs, World.syslog_fs]
  cases hs : o.open_source with
  | err e => simp
  | ok =>
    cases hf : w.fs SCRIPT_SOURCE with
    | none => simp
    | some src =>
      cases hd : o.open_dest with
      | err e => simp
      | ok => simp [hs, hf, hd] at h

theorem copy_script_file_full (o : CopyOutcome) (w : World) (src : File)
    (hs : o.open_source = .ok) (hf : w.fs SCRIPT_SOURCE = some src) (hd : o.open_dest = .ok)
    (hrd : inFull 4096 o.read) (hwr : inFull 4096 o.write) :
    (copy_script_file o w).fs SCRIPT_PATH =
        some ⟨src.content,
          match o.chmod with
          | .ok => 0o755
          | .err _ => ((w.fs SCRIPT_PATH).map File.mode).getD (World.createMode w.umask 0o755)⟩ ∧
      ∃ chunks, writesOf (copy_script_file o w).calls = writesOf w.calls ++ chunks ∧
        (chunks.map String.data).flatten = src.content.data ∧
        ∀ c ∈ chunks, 0 < c.data.length ∧ c.data.length ≤ 4096 := by
  have hw : ((((w.syslog .LOG_INFO ("Copying script from " ++ SCRIPT_SOURCE ++ " to " ++ SCRIPT_PATH)).call
      (.open_rdonly SCRIPT_SOURCE)).call (.open_wronly_creat_trunc SCRIPT_PATH 0o755)).truncate
        SCRIPT_PATH 0o755).fs SCRIPT_PATH =
      some ⟨"", ((w.fs SCRIPT_PATH).map File.mode).getD (World.createMode w.umask 0o755)⟩ := by
    simp [World.truncate_fs]
  obtain ⟨w', chunks, h1, h2, h3, h4, h5⟩ :=
    copy_loop_full o.read o.write o.errno 4096 (by decide) hrd hwr (src.content.data.length + 1) 0
      src.content.data _ _ (Nat.lt_succ_self _) hw
  have hcontent : "" ++ String.mk src.content.data = src.content := by
    apply String.ext; simp
  rw [hcontent] at h2
  have hwrites : writesOf w'.calls = writesOf w.calls ++ chunks := by
    rw [h3]; simp [writesOf, List.filterMap_append]
  unfold copy_script_file
  simp only [World.call_fs, World.syslog_fs, hs, hf, hd, h1]
  cases o.chmod with
  | ok =>
    refine ⟨by simp [World.setMode_fs, h2], chunks, ?_, h4, h5⟩
    simp [writesOf, List.filterMap_append] at hwrites ⊢
    exact hwrites
  | err e =>
    refine ⟨by simp [h2], chunks, ?_, h4, h5⟩
    simp [writesOf, List.filterMap_append] at hwrites ⊢
    exact hwrites

/-! ## `start_wireguard` -/

theorem stat_result_ok_iff (r : Sys) (f : Option File) :
    stat_result r f = .ok ↔ r = .ok ∧ ∃ g, f = some g := by
  cases r <;> cases f <;> simp [stat_result]

theorem start_wireguard_log (o : StartOutcome) (w : World) :
    (start_wireguard o w).log = (provisioned o w).log ++ forkLog o.fork := by
  unfold start_wireguard provisioned forkLog
  cases o.fork <;> simp

theorem start_wireguard_calls_eq (o : StartOutcome) (w : World) :
    (start_wireguard o w).calls = (provisioned o w).calls ++ [Call.fork] := by
  unfold start_wireguard provisioned
  cases o.fork <;> simp

theorem start_wireguard_fs (o : StartOutcome) (w : World) :
    (start_wireguard o w).fs = (provisioned o w).fs := by
  unfold start_wireguard provisioned
  cases o.fork <;> simp

theorem start_wireguard_store (o : StartOutcome) (w : World) :
    (start_wireguard o w).store = (provisioned o w).store := by
  unfold start_wireguard provisioned
  cases o.fork <;> simp

theorem start_wireguard_umask (o : StartOutcome) (w : World) :
    (start_wireguard o w).umask = (provisioned o w).umask := by
  unfold start_wireguard provisioned
  cases o.fork <;> simp

theorem start_wireguard_callbacks (o : StartOutcome) (w : World) :
    (start_wireguard o w).callbacks = (provisioned o w).callbacks := by
  unfold start_wireguard provisioned
  cases o.fork <;> simp

theorem start_wireguard_children_eq (o : StartOutcome) (w : World) :
    (start_wireguard o w).children =
      (provisioned o w).children ++ forkChildren o.fork o.stat ((provisioned o w).fs SCRIPT_PATH) := by
  unfold start_wireguard provisioned forkChildren
  cases o.fork <;> simp

theorem provisioned_ok (o : StartOutcome) (w : World)
    (h : stat_result o.stat (w.fs SCRIPT_PATH) = .ok) :
    provisioned o w =
      (w.syslog .LOG_INFO "Starting WireGuard VPN script").call (.stat SCRIPT_PATH) := by
  unfold provisioned
  simp only [World.call_fs, World.syslog_fs, h]

theorem provisioned_err (o : StartOutcome) (w : World)
    (h : stat_result o.stat (w.fs SCRIPT_PATH) ≠ .ok) :
    provisioned o w = copy_script_file (o.copy.after o.stat)
      (((w.syslog .LOG_INFO "Starting WireGuard VPN script").call (.stat SCRIPT_PATH)).syslog
        .LOG_INFO ("Script not found at " ++ SCRIPT_PATH ++ ", copying from lib folder")) := by
  unfold provisioned
  simp only [World.call_fs, World.syslog_fs]
  cases hs : stat_result o.stat (w.fs SCRIPT_PATH) with
  | ok => exact absurd hs h
  | err e => rfl

theorem provisioned_frame (o : StartOutcome) (w : World) :
    (provisioned o w).store = w.store ∧ (provisioned o w).umask = w.umask ∧
      (provisioned o w).children = w.children ∧ (provisioned o w).callbacks = w.callbacks ∧
      ∀ q, q ≠ SCRIPT_PATH → (provisioned o w).fs q = w.fs q := by
  by_cases h : stat_result o.stat (w.fs SCRIPT_PATH) = .ok
  · rw [provisioned_ok o w h]
    simp
  · rw [provisioned_err o w h]
    have hc := copy_script_file_frame (o.copy.after o.stat)
      (((w.syslog .LOG_INFO "Starting WireGuard VPN script").call (.stat SCRIPT_PATH)).syslog
        .LOG_INFO ("Script not found at " ++ SCRIPT_PATH ++ ", copying from lib folder"))
    simpa using hc

theorem provisioned_present_fs (o : StartOutcome) (w : World) (f : File)
    (h : w.fs SCRIPT_PATH = some f) : (provisioned o w).fs = w.fs := by
  by_cases hs : stat_result o.stat (w.fs SCRIPT_PATH) = .ok
  · rw [provisioned_ok o w hs]
    simp
  · rw [provisioned_err o w hs]
    have hst : o.stat ≠ .ok := by
      intro hok
      exact hs ((stat_result_ok_iff _ _).mpr ⟨hok, f, h⟩)
    rw [copy_script_file_fs_unchanged]
    · simp
    · left
      cases hq : o.stat with
      | ok => exact absurd hq hst
      | err e => simp [CopyOutcome.after]

theorem provisioned_calls (o : StartOutcome) (w : World) :
    ∃ scr, (provisioned o w).calls = w.calls ++ Call.stat SCRIPT_PATH :: scr ∧
      (∀ c ∈ scr, Call.isScriptCall c = true) ∧
      (Call.open_rdonly SCRIPT_SOURCE ∈ scr ↔ stat_result o.stat (w.fs SCRIPT_PATH) ≠ .ok) := by
  by_cases h : stat_result o.stat (w.fs SCRIPT_PATH) = .ok
  · rw [provisioned_ok o w h]
    exact ⟨[], by simp, by simp, by simp [h]⟩
  · rw [provisioned_err o w h]
    obtain ⟨rest, h1, h2⟩ := copy_script_file_calls (o.copy.after o.stat)
      (((w.syslog .LOG_INFO "Starting WireGuard VPN script").call (.stat SCRIPT_PATH)).syslog
        .LOG_INFO ("Script not found at " ++ SCRIPT_PATH ++ ", copying from lib folder"))
    refine ⟨.open_rdonly SCRIPT_SOURCE :: rest, by simp [h1], ?_, by simp [h]⟩
    intro c hc
    rcases List.mem_cons.mp hc with rfl | hc
    · rfl
    · exact h2 c hc

theorem start_wireguard_frame (o : StartOutcome) (w : World) :
    (start_wireguard o w).store = w.store ∧ (start_wireguard o w).umask = w.umask ∧
      (start_wireguard o w).callbacks = w.callbacks ∧
      ∀ q, q ≠ SCRIPT_PATH → (start_wireguard o w).fs q = w.fs q := by
  obtain ⟨h1, h2, -, h4, h5⟩ := provisioned_frame o w
  rw [start_wireguard_store, start_wireguard_umask, start_wireguard_callbacks, start_wireguard_fs]
  exact ⟨h1, h2, h4, h5⟩

theorem start_wireguard_present_fs (o : StartOutcome) (w : World) (f : File)
    (h : w.fs SCRIPT_PATH = some f) : (start_wireguard o w).fs = w.fs := by
  rw [start_wireguard_fs, provisioned_present_fs o w f h]

theorem start_wireguard_calls (o : StartOutcome) (w : World) :
    ∃ scr, (start_wireguard o w).calls = w.calls ++ Call.stat SCRIPT_PATH :: scr ++ [Call.fork] ∧
      (∀ c ∈ scr, Call.isScriptCall c = true) ∧
      (Call.open_rdonly SCRIPT_SOURCE ∈ scr ↔ stat_result o.stat (w.fs SCRIPT_PATH) ≠ .ok) := by
  obtain ⟨scr, h1, h2, h3⟩ := provisioned_calls o w
  exact ⟨scr, by rw [start_wireguard_calls_eq, h1], h2, h3⟩

theorem provisioned_log_congr (o : StartOutcome) (w1 w2 : World) (pre : List LogEntry)
    (hlog : w1.log = pre ++ w2.log) (hdst : w1.fs SCRIPT_PATH = w2.fs SCRIPT_PATH)
    (hsrc : w1.fs SCRIPT_SOURCE = w2.fs SCRIPT_SOURCE) :
    (provisioned o w1).log = pre ++ (provisioned o w2).log := by
  by_cases h : stat_result o.stat (w2.fs SCRIPT_PATH) = .ok
  · rw [provisioned_ok o w1 (hdst ▸ h), provisioned_ok o w2 h]
    simp [hlog]
  · rw [provisioned_err o w1 (hdst ▸ h), provisioned_err o w2 h]
    exact copy_script_file_log_congr _ _ _ pre (by simp [hlog]) (by simpa using hsrc)

theorem start_wireguard_log_congr (o : StartOutcome) (w1 w2 : World) (pre : List LogEntry)
    (hlog : w1.log = pre ++ w2.log) (hdst : w1.fs SCRIPT_PATH = w2.fs SCRIPT_PATH)
    (hsrc : w1.fs SCRIPT_SOURCE = w2.fs SCRIPT_SOURCE) :
    (start_wireguard o w1).log = pre ++ (start_wireguard o w2).log := by
  rw [start_wireguard_log, start_wireguard_log, provisioned_log_congr o w1 w2 pre hlog hdst hsrc,
    List.append_assoc]

/-! ## Registration -/

theorem register_callbacks_spec (reg : String → AxResult) :
    ∀ (ps : List String) (w : World),
      (register_callbacks reg ps w).calls =
          w.calls ++ (ps.flatMap (attempts reg)).map Call.ax_parameter_register_callback ∧
        (register_callbacks reg ps w).callbacks = w.callbacks ++ ps.flatMap (bound reg) ∧
        (register_callbacks reg ps w).fs = w.fs ∧
        (register_callbacks reg ps w).children = w.children ∧
        (register_callbacks reg ps w).store = w.store := by
  intro ps
  induction ps with
  | nil => intro w; simp [register_callbacks]
  | cons p ps ih =>
    intro w
    unfold register_callbacks
    simp only []
    cases hp : reg p with
    | ok =>
      obtain ⟨h1, h2, h3, h4, h5⟩ := ih { w.call (.ax_parameter_register_callback p) with
        callbacks := (w.call (.ax_parameter_register_callback p)).callbacks ++ [p] }
      simp only [h1, h2, h3, h4, h5]
      simp [attempts, bound, hp]
    | fail e =>
      simp only []
      cases hq : reg (snprintf 256 ("root." ++ APP_NAME ++ "." ++ p)) with
      | ok =>
        obtain ⟨h1, h2, h3, h4, h5⟩ := ih
          { ((w.call (.ax_parameter_register_callback p)).syslog .LOG_ERR
              ("Failed to register " ++ p ++ " callback: " ++ e.getD "unknown error")).call
              (.ax_parameter_register_callback (snprintf 256 ("root." ++ APP_NAME ++ "." ++ p))) with
            callbacks := (((w.call (.ax_parameter_register_callback p)).syslog .LOG_ERR
              ("Failed to register " ++ p ++ " callback: " ++ e.getD "unknown error")).call
              (.ax_parameter_register_callback
                (snprintf 256 ("root." ++ APP_NAME ++ "." ++ p)))).callbacks ++
                  [snprintf 256 ("root." ++ APP_NAME ++ "." ++ p)] }
        simp only [h1, h2, h3, h4, h5]
        simp [attempts, bound, hp, hq, full_name]
      | fail e2 =>
        obtain ⟨h1, h2, h3, h4, h5⟩ := ih
          ((((w.call (.ax_parameter_register_callback p)).syslog .LOG_ERR
              ("Failed to register " ++ p ++ " callback: " ++ e.getD "unknown error")).call
              (.ax_parameter_register_callback
                (snprintf 256 ("root." ++ APP_NAME ++ "." ++ p)))).syslog .LOG_INFO
                  ("Fallback " ++ p ++ " registration failed (this may be normal)"))
        simp only [h1, h2, h3, h4, h5]
        simp [attempts, bound, hp, hq, full_name]

theorem registrationsOf_append (a b : List Call) :
    registrationsOf (a ++ b) = registrationsOf a ++ registrationsOf b := by
  simp [registrationsOf, List.filterMap_append]

theorem registrationsOf_map (ns : List String) :
    registrationsOf (ns.map Call.ax_parameter_register_callback) = ns := by
  induction ns with
  | nil => rfl
  | cons n ns ih => simpa [registrationsOf] using ih

theorem registrationsOf_script (cs : List Call) (h : ∀ c ∈ cs, Call.isScriptCall c = true) :
    registrationsOf cs = [] := by
  induction cs with
  | nil => rfl
  | cons c cs ih =>
    have hc := h c (by simp)
    have := ih (fun x hx => h x (by simp [hx]))
    cases c <;> simp_all [registrationsOf, Call.isScriptCall]

/-! ## Text -/

theorem strstr_isSome_iff (h n : List Char) : (strstr h n).isSome ↔ n <:+: h := by
  induction h with
  | nil =>
    cases n <;> simp [strstr]
  | cons c cs ih =>
    unfold strstr
    by_cases hp : n.isPrefixOf (c :: cs) = true
    · simp only [hp, if_true, Option.isSome_some, true_iff]
      exact (List.isPrefixOf_iff_prefix.mp hp).isInfix
    · simp only [hp, if_false, Bool.false_eq_true]
      rw [ih, List.infix_cons_iff]
      constructor
      · exact fun h => Or.inr h
      · rintro (h | h)
        · exact absurd (List.isPrefixOf_iff_prefix.mpr h) hp
        · exact h

theorem splitLines_line (l rest : List Char) (h : '\n' ∉ l) :
    splitLines (l ++ '\n' :: rest) = (l :: (splitLines rest).1, (splitLines rest).2) := by
  induction l with
  | nil => simp [splitLines]
  | cons c l ih =>
    have hc : c ≠ '\n' := fun e => h (by simp [e])
    have hl : '\n' ∉ l := fun e => h (by simp [e])
    simp [splitLines, ih hl, hc]

theorem splitLines_configLine (key value : String) (rest : List Char)
    (hk : '\n' ∉ key.data) (hv : '\n' ∉ value.data) :
    splitLines ((configLine key value).data ++ rest) =
      ((key ++ "=" ++ value).data :: (splitLines rest).1, (splitLines rest).2) := by
  have h : '\n' ∉ (key ++ "=" ++ value).data := by
    simp only [String.data_append, List.mem_append, not_or]
    exact ⟨⟨hk, by decide⟩, hv⟩
  have e : (configLine key value).data ++ rest = (key ++ "=" ++ value).data ++ '\n' :: rest := by
    simp [configLine]
  rw [e, splitLines_line _ _ h]

theorem fileLines_configLines (s : String → GetResult)
    (h : ∀ v ∈ configValues s, '\n' ∉ v.data) :
    fileLines (concatLines (configLines s)) = (configEntries s, "") := by
  simp only [configValues, List.mem_cons, List.mem_singleton, forall_eq_or_imp, forall_eq,
    List.not_mem_nil, false_implies, implies_true, and_true] at h
  obtain ⟨h1, h2, h3, h4, h5, h6⟩ := h
  have e : (concatLines (configLines s)).data =
      (configLine "private_key" (written "" (s "PrivateKey"))).data ++
      ((configLine "listen_port" (written "51820" (s "ListenPort"))).data ++
      ((configLine "endpoint" (written "" (s "Endpoint"))).data ++
      ((configLine "peer_public_key" (written "" (s "PeerPublicKey"))).data ++
      ((configLine "allowed_ips" (written "0.0.0.0/0" (s "AllowedIPs"))).data ++
      ((configLine "client_ip" (written "10.0.0.2/24" (s "ClientIP"))).data ++ []))))) := by
    simp [concatLines, configLines]
  unfold fileLines
  rw [e]
  rw [splitLines_configLine _ _ _ (by decide) h1, splitLines_configLine _ _ _ (by decide) h2,
    splitLines_configLine _ _ _ (by decide) h3, splitLines_configLine _ _ _ (by decide) h4,
    splitLines_configLine _ _ _ (by decide) h5, splitLines_configLine _ _ _ (by decide) h6]
  rfl

/-! ## `main` -/

theorem registrationsOf_copy (o : CopyOutcome) (w : World) :
    registrationsOf (copy_script_file o w).calls = registrationsOf w.calls := by
  obtain ⟨rest, h1, h2⟩ := copy_script_file_calls o w
  rw [h1, registrationsOf_append,
    registrationsOf_script (Call.open_rdonly SCRIPT_SOURCE :: rest)]
  · simp
  · intro c hc
    rcases List.mem_cons.mp hc with rfl | hc
    · rfl
    · exact h2 c hc

theorem registrationsOf_update (b : Bool) (io : WriteOutcome) (w : World) :
    registrationsOf (update_config_file b io w).calls = registrationsOf w.calls := by
  rw [update_config_file_calls]
  cases b <;> simp [registrationsOf, List.filterMap_append, params, configLines]

theorem registrationsOf_start (o : StartOutcome) (w : World) :
    registrationsOf (start_wireguard o w).calls = registrationsOf w.calls := by
  obtain ⟨scr, h1, h2, -⟩ := start_wireguard_calls o w
  have hs : registrationsOf scr = [] := registrationsOf_script scr h2
  have e : w.calls ++ Call.stat SCRIPT_PATH :: scr ++ [Call.fork] =
      w.calls ++ ([Call.stat SCRIPT_PATH] ++ scr ++ [Call.fork]) := by simp
  rw [h1, e, registrationsOf_append, registrationsOf_append, registrationsOf_append, hs]
  simp [registrationsOf]

theorem main_running (o : MainOutcome) (w : World) (hnew : o.ax_parameter_new = .ok) :
    main o w = .running ((register_callbacks o.register params
      (start_wireguard o.start (update_config_file o.fopen_ok o.io
        (copy_script_file o.copy (w.syslog .LOG_INFO "WireGuard config updater starting"))))).syslog
          .LOG_INFO "WireGuard config updater running. Waiting for parameter changes...") := by
  unfold main
  simp only [hnew]

theorem script_ne_config : SCRIPT_PATH ≠ CONFIG_FILE := by decide

theorem full_name_params : ∀ p ∈ params, full_name p = "root.wireguardconfig." ++ p := by decide

/-! ## `parameter_changed` -/

theorem fileLines_second (s : String → GetResult)
    (h1 : '\n' ∉ (written "" (s "PrivateKey")).data)
    (h2 : '\n' ∉ (written "51820" (s "ListenPort")).data) :
    (fileLines (concatLines (configLines s))).1[1]? =
      some ("listen_port=" ++ written "51820" (s "ListenPort")) := by
  have e : (concatLines (configLines s)).data =
      (configLine "private_key" (written "" (s "PrivateKey"))).data ++
      ((configLine "listen_port" (written "51820" (s "ListenPort"))).data ++
      ((configLine "endpoint" (written "" (s "Endpoint"))).data ++
      ((configLine "peer_public_key" (written "" (s "PeerPublicKey"))).data ++
      ((configLine "allowed_ips" (written "0.0.0.0/0" (s "AllowedIPs"))).data ++
      ((configLine "client_ip" (written "10.0.0.2/24" (s "ClientIP"))).data ++ []))))) := by
    simp [concatLines, configLines]
  unfold fileLines
  rw [e, splitLines_configLine _ _ _ (by decide) h1, splitLines_configLine _ _ _ (by decide) h2]
  simp only [List.map_cons, List.getElem?_cons_succ, List.getElem?_cons_zero]
  rfl

theorem parameter_changed_calls (o : ChangeOutcome) (name value : String) (w : World) :
    ∃ cfg scr, (parameter_changed o name value w).calls =
        w.calls ++ params.map Call.ax_parameter_get ++ Call.fopen CONFIG_FILE "w" :: cfg ++
          Call.stat SCRIPT_PATH :: scr ++ [Call.fork] ∧
      (∀ c ∈ cfg, Call.isConfigWrite c = true) ∧ (∀ c ∈ scr, Call.isScriptCall c = true) := by
  unfold parameter_changed
  simp only []
  obtain ⟨scr, h1, h2, -⟩ := start_wireguard_calls o.start (update_config_file o.fopen_ok o.io
    (w.syslog .LOG_INFO ("Parameter changed: " ++ simple_name name ++ " = " ++
      (if sensitive (simple_name name) then "(sensitive value)" else value))))
  refine ⟨if o.fopen_ok then (configLines w.store).map (Call.fprintf CONFIG_FILE) ++
      [Call.fclose CONFIG_FILE, Call.chmod CONFIG_FILE 0o600] else [], scr, ?_, ?_, h2⟩
  · rw [h1, update_config_file_calls]
    simp
  · intro c hc
    cases hb : o.fopen_ok
    · simp [hb] at hc
    · simp only [hb, if_true, List.mem_append, List.mem_map, List.mem_cons, List.mem_singleton,
        List.not_mem_nil, or_false] at hc
      rcases hc with ⟨t, -, rfl⟩ | rfl | rfl <;> simp [Call.isConfigWrite]

theorem parameter_changed_fs_config (o : ChangeOutcome) (name value : String) (w : World) :
    (parameter_changed o name value w).fs CONFIG_FILE =
      (update_config_file o.fopen_ok o.io w).fs CONFIG_FILE := by
  unfold parameter_changed
  simp only []
  rw [(start_wireguard_frame _ _).2.2.2 CONFIG_FILE (Ne.symm script_ne_config)]
  cases o.fopen_ok
  · rw [update_config_file_fs_fail, update_config_file_fs_fail]; rfl
  · rw [update_config_file_fs_ok, update_config_file_fs_ok]; simp

theorem start_wireguard_log_extends (o : StartOutcome) (w : World) :
    ∃ rest, (start_wireguard o w).log = w.log ++ rest :=
  ⟨_, start_wireguard_log_congr o w { w with log := [] } w.log (by simp) rfl rfl⟩

theorem readLog_keyAgree (n : String) (r1 r2 : GetResult) (h : keyAgree r1 r2) :
    readLog n r1 = readLog n r2 := by
  rcases h with rfl | ⟨a, b, -, -, rfl, rfl⟩
  · rfl
  · rfl

theorem nonempty_keyAgree (r1 r2 : GetResult) (h : keyAgree r1 r2) :
    nonempty (obtained "" r1) = nonempty (obtained "" r2) := by
  rcases h with rfl | ⟨a, b, ha, hb, rfl, rfl⟩
  · rfl
  · simp [nonempty, obtained, ha, hb]

theorem update_config_file_log_keyAgree (b : Bool) (io : WriteOutcome) (w : World)
    (s2 : String → GetResult)
    (hs : ∀ n, n ≠ "PrivateKey" → n ≠ "PeerPublicKey" → s2 n = w.store n)
    (h1 : keyAgree (w.store "PrivateKey") (s2 "PrivateKey"))
    (h2 : keyAgree (w.store "PeerPublicKey") (s2 "PeerPublicKey")) :
    (update_config_file b io { w with store := s2 }).log = (update_config_file b io w).log := by
  rw [update_config_file_log, update_config_file_log]
  have e1 : readLogs s2 = readLogs w.store := by
    unfold readLogs
    rw [readLog_keyAgree _ _ _ h1, readLog_keyAgree _ _ _ h2,
      hs "ListenPort" (by decide) (by decide), hs "Endpoint" (by decide) (by decide),
      hs "AllowedIPs" (by decide) (by decide), hs "ClientIP" (by decide) (by decide)]
  have e2 : summaryLog s2 = summaryLog w.store := by
    unfold summaryLog
    rw [nonempty_keyAgree _ _ h1, nonempty_keyAgree _ _ h2,
      hs "ListenPort" (by decide) (by decide), hs "Endpoint" (by decide) (by decide),
      hs "AllowedIPs" (by decide) (by decide), hs "ClientIP" (by decide) (by decide)]
  show w.log ++ readLogs s2 ++ (if b then summaryLog s2 else _) = _
  rw [e1, e2]

theorem simple_name_qualified (s : String) : simple_name ("root.wireguardconfig." ++ s) = s := by
  unfold simple_name
  have hp : "root." ++ APP_NAME ++ "." = "root.wireguardconfig." := by decide
  simp only [hp]
  have hl : "root.wireguardconfig.".length = "root.wireguardconfig.".data.length := rfl
  have h1 : strncmp_eq ("root.wireguardconfig." ++ s) "root.wireguardconfig."
      "root.wireguardconfig.".length = true := by
    unfold strncmp_eq
    rw [hl, String.data_append, List.take_left, List.take_length]
    simp
  rw [if_pos h1]
  unfold advance
  rw [hl, String.data_append, List.drop_left]

/-! ## The claims -/

/-- C1, as amended.  When the open of the configuration file succeeds and each of
the six lines handed to `fprintf` reaches the file whole, `update_config_file` leaves
the file holding exactly the text of the six records `key=value` followed by a
newline, in the order private_key, listen_port, endpoint, peer_public_key,
allowed_ips, client_ip, whatever the file held before and whatever the six reads
returned; these records are exactly the six lines of the file when none of the six
values written contains a newline. -/
theorem update_config_file_six_records (io : WriteOutcome) (w : World) (h : allLanded io) :
    ((update_config_file true io w).fs CONFIG_FILE).map File.content =
        some (concatLines (configLines w.store)) ∧
      ((∀ v ∈ configValues w.store, '\n' ∉ v.data) →
        fileLines (concatLines (configLines w.store)) = (configEntries w.store, "")) := by
  refine ⟨?_, fileLines_configLines w.store⟩
  rw [update_config_file_fs_ok, landedLines_all io w.store h]
  simp

/-- Witness for C1 as amended: with every read failing and every line reaching the
file, the six defaults are written, none holds a newline, and the file has the six
lines. -/
theorem update_config_file_six_records_witness :
    allLanded writeOk ∧
      ((update_config_file true writeOk emptyWorld).fs CONFIG_FILE).map File.content =
        some "private_key=\nlisten_port=51820\nendpoint=\npeer_public_key=\nallowed_ips=0.0.0.0/0\nclient_ip=10.0.0.2/24\n" ∧
      fileLines (concatLines (configLines emptyWorld.store)) =
        (["private_key=", "listen_port=51820", "endpoint=", "peer_public_key=",
          "allowed_ips=0.0.0.0/0", "client_ip=10.0.0.2/24"], "") :=
  ⟨fun _ _ => rfl,
    (update_config_file_six_records writeOk emptyWorld (fun _ _ => rfl)).1,
    (update_config_file_six_records writeOk emptyWorld (fun _ _ => rfl)).2 (by decide)⟩

/-- C1 as stated fails, in two ways.  When the read of PrivateKey succeeds with a
value holding a newline, the file written has seven lines, the second of which is no
`key=value` record.  When the open succeeds and the disk is full, the file is left
empty. -/
theorem update_config_file_six_lines_counterexample :
    ((update_config_file true writeOk newlineWorld).fs CONFIG_FILE = some
        ⟨"private_key=a\nb\nlisten_port=51820\nendpoint=\npeer_public_key=\nallowed_ips=0.0.0.0/0\nclient_ip=10.0.0.2/24\n",
          0o600⟩ ∧
      fileLines
          "private_key=a\nb\nlisten_port=51820\nendpoint=\npeer_public_key=\nallowed_ips=0.0.0.0/0\nclient_ip=10.0.0.2/24\n" =
        (["private_key=a", "b", "listen_port=51820", "endpoint=", "peer_public_key=",
          "allowed_ips=0.0.0.0/0", "client_ip=10.0.0.2/24"], "") ∧
      ¬ (fileLines
          "private_key=a\nb\nlisten_port=51820\nendpoint=\npeer_public_key=\nallowed_ips=0.0.0.0/0\nclient_ip=10.0.0.2/24\n").1.length = 6) ∧
    ((update_config_file true fullDisk emptyWorld).fs CONFIG_FILE = some ⟨"", 0o600⟩ ∧
      fileLines "" = ([], "")) := by
  decide

/-- C2, as amended.  With the open succeeding, the texts handed to the six `fprintf`
calls are, in order, the six lines, each carrying the value determined by the read
of its own field alone: the documented default when that read fails (empty for
private_key, endpoint and peer_public_key, 51820 for listen_port, 0.0.0.0/0 for
allowed_ips, 10.0.0.2/24 for client_ip), and the value read when it succeeds.  When
each line reaches the file whole, the file holds exactly these six lines, whatever
it held before. -/
theorem update_config_file_field_defaults (io : WriteOutcome) (w : World) :
    (update_config_file true io w).calls =
        w.calls ++ params.map Call.ax_parameter_get ++ [Call.fopen CONFIG_FILE "w"] ++
          [Call.fprintf CONFIG_FILE ("private_key=" ++ written "" (w.store "PrivateKey") ++ "\n"),
           Call.fprintf CONFIG_FILE ("listen_port=" ++ written "51820" (w.store "ListenPort") ++ "\n"),
           Call.fprintf CONFIG_FILE ("endpoint=" ++ written "" (w.store "Endpoint") ++ "\n"),
           Call.fprintf CONFIG_FILE
             ("peer_public_key=" ++ written "" (w.store "PeerPublicKey") ++ "\n"),
           Call.fprintf CONFIG_FILE
             ("allowed_ips=" ++ written "0.0.0.0/0" (w.store "AllowedIPs") ++ "\n"),
           Call.fprintf CONFIG_FILE ("client_ip=" ++ written "10.0.0.2/24" (w.store "ClientIP") ++ "\n"),
           Call.fclose CONFIG_FILE, Call.chmod CONFIG_FILE 0o600] ∧
      (allLanded io →
        ((update_config_file true io w).fs CONFIG_FILE).map File.content = some
          ("private_key=" ++ written "" (w.store "PrivateKey") ++ "\n" ++
            ("listen_port=" ++ written "51820" (w.store "ListenPort") ++ "\n") ++
            ("endpoint=" ++ written "" (w.store "Endpoint") ++ "\n") ++
            ("peer_public_key=" ++ written "" (w.store "PeerPublicKey") ++ "\n") ++
            ("allowed_ips=" ++ written "0.0.0.0/0" (w.store "AllowedIPs") ++ "\n") ++
            ("client_ip=" ++ written "10.0.0.2/24" (w.store "ClientIP") ++ "\n"))) ∧
      (∀ dflt error, written dflt (.fail error) = dflt) ∧
      (∀ dflt v, written dflt (.ok (some v)) = v) := by
  refine ⟨?_, ?_, fun _ _ => rfl, fun _ _ => rfl⟩
  · rw [update_config_file_calls]
    simp [configLines, configLine]
  · intro h
    rw [update_config_file_fs_ok, landedLines_all io w.store h]
    simp [concatLines, configLines, configLine]

/-- Witness for C2 as amended: every read fails, every line reaches the file, and the
file holds the six defaults in place of what it held. -/
theorem update_config_file_field_defaults_witness :
    allLanded writeOk ∧ sharedConfigWorld.fs CONFIG_FILE = some ⟨"stale", 0o666⟩ ∧
      ((update_config_file true writeOk sharedConfigWorld).fs CONFIG_FILE).map File.content =
        some "private_key=\nlisten_port=51820\nendpoint=\npeer_public_key=\nallowed_ips=0.0.0.0/0\nclient_ip=10.0.0.2/24\n" :=
  ⟨fun _ _ => rfl, by decide,
    (update_config_file_field_defaults writeOk sharedConfigWorld).2.1 (fun _ _ => rfl)⟩

/-- C2 as stated fails: with the open succeeding, every read failing and the disk
full, the file that held a text is left empty, with no key in it, although the six
default lines were handed to `fprintf`. -/
theorem update_config_file_missing_key_counterexample :
    sharedConfigWorld.fs CONFIG_FILE = some ⟨"stale", 0o666⟩ ∧
      (update_config_file true fullDisk sharedConfigWorld).fs CONFIG_FILE = some ⟨"", 0o600⟩ ∧
      (fileLines "").1 = [] := by
  decide

/-- C4, as amended.  After `update_config_file` with the open of the configuration
file and its `chmod` succeeding, the file's permission bits are 0600, whatever the
world was before and whatever reached the file. -/
theorem update_config_file_mode (io : WriteOutcome) (w : World) (h : io.chmod = .ok) :
    ((update_config_file true io w).fs CONFIG_FILE).map File.mode = some 0o600 := by
  rw [update_config_file_fs_ok, h]
  simp

/-- Witness for C4 as amended: a configuration file of mode 0666 ends with mode 0600. -/
theorem update_config_file_mode_witness :
    sharedConfigWorld.fs CONFIG_FILE = some ⟨"stale", 0o666⟩ ∧
      ((update_config_file true writeOk sharedConfigWorld).fs CONFIG_FILE).map File.mode =
        some 0o600 :=
  ⟨by decide, update_config_file_mode writeOk sharedConfigWorld rfl⟩

/-- C4 as stated fails: with the open succeeding and the `chmod` refused, whose result
line 177 discards, a configuration file of mode 0666 keeps mode 0666. -/
theorem update_config_file_mode_counterexample :
    sharedConfigWorld.fs CONFIG_FILE = some ⟨"stale", 0o666⟩ ∧
      ((update_config_file true chmodRefused sharedConfigWorld).fs CONFIG_FILE).map File.mode =
        some 0o666 ∧
      ((update_config_file true chmodRefused sharedConfigWorld).fs CONFIG_FILE).map File.mode ≠
        some 0o600 := by
  decide

/-- C7.  When the open of the configuration file fails, `update_config_file` leaves
the whole file system as it was, and the only calls it issues are the six reads and
the failed open: nothing is written and no mode is changed. -/
theorem update_config_file_open_failure (io : WriteOutcome) (w : World) :
    (update_config_file false io w).fs = w.fs ∧
      (update_config_file false io w).calls =
        w.calls ++ params.map Call.ax_parameter_get ++ [Call.fopen CONFIG_FILE "w"] := by
  refine ⟨update_config_file_fs_fail io w, ?_⟩
  rw [update_config_file_calls]
  simp

/-- C9, as amended.  When both opens succeed, every read and write completes in full
and the final `chmod` succeeds, `copy_script_file` leaves the runtime script with the
contents of the source and mode 0755, for every content of the source; the data of
the `write` calls, in the order issued, are non-empty chunks of at most 4096 bytes
whose concatenation is the source; and the loop ends within the fuel given, for every
outcome of its reads and writes. -/
theorem copy_script_file_copies (o : CopyOutcome) (w : World) (src : File)
    (hs : o.open_source = .ok) (hf : w.fs SCRIPT_SOURCE = some src) (hd : o.open_dest = .ok)
    (hrd : inFull 4096 o.read) (hwr : inFull 4096 o.write) (hc : o.chmod = .ok) :
    (copy_script_file o w).fs SCRIPT_PATH = some ⟨src.content, 0o755⟩ ∧
      (∃ chunks, writesOf (copy_script_file o w).calls = writesOf w.calls ++ chunks ∧
        (chunks.map String.data).flatten = src.content.data ∧
        ∀ c ∈ chunks, 0 < c.data.length ∧ c.data.length ≤ 4096) ∧
      (∀ (rd wr : Nat → IoResult) (errno : String) (rem : List Char) (u : World),
        (copy_loop rd wr errno 4096 (rem.length + 1) 0 rem u).isSome = true) := by
  obtain ⟨h1, h2⟩ := copy_script_file_full o w src hs hf hd hrd hwr
  rw [hc] at h1
  exact ⟨h1, h2, fun rd wr errno rem u =>
    copy_loop_isSome rd wr errno 4096 _ 0 rem u (Nat.lt_succ_self _)⟩

/-- Witness for C9 as amended: a three-byte source, and a source of 5000 bytes, copied
into a world without the runtime script. -/
theorem copy_script_file_copies_witness :
    (copy_script_file copyOk freshWorld).fs SCRIPT_PATH = some ⟨"new", 0o755⟩ ∧
      (copy_script_file copyOk longSourceWorld).fs SCRIPT_PATH =
        some ⟨String.mk (List.replicate 5000 'x'), 0o755⟩ :=
  ⟨(copy_script_file_copies copyOk freshWorld ⟨"new", 0o644⟩ rfl (by decide) rfl
      (fun _ => ⟨4096, rfl, Nat.le_refl _⟩) (fun _ => ⟨4096, rfl, Nat.le_refl _⟩) rfl).1,
    (copy_script_file_copies copyOk longSourceWorld ⟨String.mk (List.replicate 5000 'x'), 0o644⟩
      rfl rfl rfl (fun _ => ⟨4096, rfl, Nat.le_refl _⟩) (fun _ => ⟨4096, rfl, Nat.le_refl _⟩)
      rfl).1⟩

/-- C9 as stated fails: with both opens succeeding and every read and write complete,
a failing `chmod` leaves the runtime script with the mode it had, not 0755. -/
theorem copy_script_file_mode_counterexample :
    copyChmodFails.open_source = .ok ∧ copyChmodFails.open_dest = .ok ∧
      inFull 4096 copyChmodFails.read ∧ inFull 4096 copyChmodFails.write ∧
      (copy_script_file copyChmodFails staleScriptWorld).fs SCRIPT_PATH = some ⟨"new", 0o600⟩ ∧
      ((copy_script_file copyChmodFails staleScriptWorld).fs SCRIPT_PATH).map File.mode ≠
        some 0o755 :=
  ⟨rfl, rfl, fun _ => ⟨4096, rfl, Nat.le_refl _⟩, fun _ => ⟨4096, rfl, Nat.le_refl _⟩,
    by decide, by decide⟩

/-- C8.  Once the parameter handle is obtained, `main` reaches the event loop for
every outcome of the registrations.  The registrations it attempts are, for the six
names in the order PrivateKey, ListenPort, Endpoint, PeerPublicKey, AllowedIPs,
ClientIP, the name itself, followed by `root.wireguardconfig.` and the name exactly
when the first attempt fails; a name whose primary registration succeeds is bound to
the callback, and so is the qualified name when the primary registration fails and
the fallback succeeds. -/
theorem main_registration (o : MainOutcome) (w : World) (hnew : o.ax_parameter_new = .ok) :
    ∃ w', main o w = .running w' ∧
      registrationsOf w'.calls = registrationsOf w.calls ++
        params.flatMap (fun p =>
          match o.register p with
          | .ok => [p]
          | .fail _ => [p, "root.wireguardconfig." ++ p]) ∧
      (∀ p ∈ params, o.register p = .ok → p ∈ w'.callbacks) ∧
      (∀ p ∈ params, o.register p ≠ .ok → o.register ("root.wireguardconfig." ++ p) = .ok →
        ("root.wireguardconfig." ++ p) ∈ w'.callbacks) := by
  refine ⟨_, main_running o w hnew, ?_, ?_, ?_⟩
  · rw [World.syslog_calls, (register_callbacks_spec _ _ _).1, registrationsOf_append,
      registrationsOf_map, registrationsOf_start, registrationsOf_update, registrationsOf_copy,
      World.syslog_calls]
    congr 1
  · intro p hp hok
    rw [World.syslog_callbacks, (register_callbacks_spec _ _ _).2.1]
    apply List.mem_append_right
    exact List.mem_flatMap.mpr ⟨p, hp, by simp [bound, hok]⟩
  · intro p hp hfail hok
    rw [World.syslog_callbacks, (register_callbacks_spec _ _ _).2.1]
    apply List.mem_append_right
    refine List.mem_flatMap.mpr ⟨p, hp, ?_⟩
    unfold bound
    rw [full_name_params p hp, hok]
    cases h : o.register p with
    | ok => exact absurd h hfail
    | fail e => simp

/-- Witness for C8: when the primary registration of AllowedIPs fails and its fallback
succeeds, start-up reaches the event loop with the qualified name bound; when all
twelve registrations fail, start-up reaches the event loop all the same. -/
theorem main_registration_witness :
    (∃ w', main mainAllowedIPsFallback emptyWorld = .running w' ∧
      registrationsOf w'.calls =
        ["PrivateKey", "ListenPort", "Endpoint", "PeerPublicKey", "AllowedIPs",
          "root.wireguardconfig.AllowedIPs", "ClientIP"] ∧
      "root.wireguardconfig.AllowedIPs" ∈ w'.callbacks) ∧
    (∃ w', main mainNoRegistration emptyWorld = .running w' ∧
      registrationsOf w'.calls =
        ["PrivateKey", "root.wireguardconfig.PrivateKey", "ListenPort",
          "root.wireguardconfig.ListenPort", "Endpoint", "root.wireguardconfig.Endpoint",
          "PeerPublicKey", "root.wireguardconfig.PeerPublicKey", "AllowedIPs",
          "root.wireguardconfig.AllowedIPs", "ClientIP", "root.wireguardconfig.ClientIP"]) := by
  obtain ⟨w1, h1, h2, -, h4⟩ := main_registration mainAllowedIPsFallback emptyWorld rfl
  obtain ⟨w2, g1, g2, -, -⟩ := main_registration mainNoRegistration emptyWorld rfl
  exact ⟨⟨w1, h1, h2, h4 "AllowedIPs" (by decide) (by decide) (by decide)⟩, w2, g1, g2⟩

/-- C3.  The simple name is the name without the prefix `root.wireguardconfig.`.
When the simple name of the changed parameter contains PrivateKey or
PeerPublicKey, the entry logged for the change is `Parameter changed: ` followed by
the simple name and ` = (sensitive value)`, for every value.  The summary logged
after a successful write shows `(set)` or `(empty)` for private_key and for
peer_public_key.  Hence the whole log of `parameter_changed` is the same in two runs
that differ only in the key values, each key being either read alike in both runs or
read successfully with a non-empty value in both, where the value passed to the
callback may differ when the name is a sensitive one. -/
theorem parameter_changed_redaction (o : ChangeOutcome) (name : String) (w : World) :
    (∀ s, simple_name ("root.wireguardconfig." ++ s) = s) ∧
    (∀ value, ("PrivateKey".data <:+: (simple_name name).data ∨
        "PeerPublicKey".data <:+: (simple_name name).data) →
      ∃ rest, (parameter_changed o name value w).log = w.log ++
        ⟨.LOG_INFO, "Parameter changed: " ++ simple_name name ++ " = (sensitive value)"⟩ :: rest) ∧
    (∃ a b, (a = "(set)" ∨ a = "(empty)") ∧ (b = "(set)" ∨ b = "(empty)") ∧
      ∀ io, (update_config_file true io w).log = w.log ++ readLogs w.store ++
        [⟨.LOG_INFO, "Updated configuration file with new parameters"⟩,
         ⟨.LOG_INFO, "private_key=" ++ a⟩,
         ⟨.LOG_INFO, "listen_port=" ++ written "51820" (w.store "ListenPort")⟩,
         ⟨.LOG_INFO, "endpoint=" ++ (obtained "" (w.store "Endpoint")).getD "(empty)"⟩,
         ⟨.LOG_INFO, "peer_public_key=" ++ b⟩,
         ⟨.LOG_INFO, "allowed_ips=" ++ written "0.0.0.0/0" (w.store "AllowedIPs")⟩,
         ⟨.LOG_INFO, "client_ip=" ++ written "10.0.0.2/24" (w.store "ClientIP")⟩]) ∧
    (∀ (s2 : String → GetResult) (v1 v2 : String),
      (∀ n, n ≠ "PrivateKey" → n ≠ "PeerPublicKey" → s2 n = w.store n) →
      keyAgree (w.store "PrivateKey") (s2 "PrivateKey") →
      keyAgree (w.store "PeerPublicKey") (s2 "PeerPublicKey") →
      (("PrivateKey".data <:+: (simple_name name).data ∨
        "PeerPublicKey".data <:+: (simple_name name).data) ∨ v1 = v2) →
      (parameter_changed o name v1 w).log =
        (parameter_changed o name v2 { w with store := s2 }).log) := by
  have hsens : ("PrivateKey".data <:+: (simple_name name).data ∨
      "PeerPublicKey".data <:+: (simple_name name).data) → sensitive (simple_name name) = true := by
    intro h
    unfold sensitive
    rw [Bool.or_eq_true, strstr_isSome_iff, strstr_isSome_iff]
    exact h
  refine ⟨simple_name_qualified, ?_, ?_, ?_⟩
  · intro value h
    unfold parameter_changed
    simp only [hsens h, if_true]
    obtain ⟨rest, hrest⟩ := start_wireguard_log_extends o.start (update_config_file o.fopen_ok o.io
      (w.syslog .LOG_INFO ("Parameter changed: " ++ simple_name name ++ " = " ++ "(sensitive value)")))
    refine ⟨readLogs w.store ++ (if o.fopen_ok then summaryLog w.store
      else [⟨.LOG_ERR, "Failed to open config file for writing"⟩]) ++ rest, ?_⟩
    rw [hrest, update_config_file_log]
    simp [String.append_assoc]
  · refine ⟨if nonempty (obtained "" (w.store "PrivateKey")) then "(set)" else "(empty)",
      if nonempty (obtained "" (w.store "PeerPublicKey")) then "(set)" else "(empty)", ?_, ?_, ?_⟩
    · cases nonempty (obtained "" (w.store "PrivateKey")) <;> simp
    · cases nonempty (obtained "" (w.store "PeerPublicKey")) <;> simp
    · intro io
      rw [update_config_file_log]
      simp [summaryLog]
  · intro s2 v1 v2 hs h1 h2 hv
    have hline : ("Parameter changed: " ++ simple_name name ++ " = " ++
        (if sensitive (simple_name name) then "(sensitive value)" else v1)) =
        ("Parameter changed: " ++ simple_name name ++ " = " ++
        (if sensitive (simple_name name) then "(sensitive value)" else v2)) := by
      rcases hv with h | rfl
      · simp [hsens h]
      · rfl
    unfold parameter_changed
    simp only []
    rw [hline]
    have e := start_wireguard_log_congr o.start
      (update_config_file o.fopen_ok o.io (w.syslog .LOG_INFO ("Parameter changed: " ++
        simple_name name ++ " = " ++
          (if sensitive (simple_name name) then "(sensitive value)" else v2))))
      (update_config_file o.fopen_ok o.io (World.syslog { w with store := s2 } .LOG_INFO
        ("Parameter changed: " ++ simple_name name ++ " = " ++
          (if sensitive (simple_name name) then "(sensitive value)" else v2))))
      [] ?_ ?_ ?_
    · simpa using e
    · have := update_config_file_log_keyAgree o.fopen_ok o.io (w.syslog .LOG_INFO
        ("Parameter changed: " ++ simple_name name ++ " = " ++
          (if sensitive (simple_name name) then "(sensitive value)" else v2))) s2 hs h1 h2
      rw [List.nil_append]
      exact this.symm
    · rw [update_config_file_fs_other _ _ _ _ script_ne_config,
        update_config_file_fs_other _ _ _ _ script_ne_config]
      rfl
    · rw [update_config_file_fs_other _ _ _ _ (by decide),
        update_config_file_fs_other _ _ _ _ (by decide)]
      rfl

/-- Witness for C3: the private key changes from one non-empty value to another; the
name is redacted with and without its prefix, and the two runs log the same text. -/
theorem parameter_changed_redaction_witness :
    simple_name "root.wireguardconfig.PrivateKey" = "PrivateKey" ∧
      simple_name "PrivateKey" = "PrivateKey" ∧
      (∃ rest, (parameter_changed changeOk "root.wireguardconfig.PrivateKey" "b3RoZXI="
          listenPortWorld).log =
        listenPortWorld.log ++
          ⟨.LOG_INFO, "Parameter changed: PrivateKey = (sensitive value)"⟩ :: rest) ∧
      (parameter_changed changeOk "root.wireguardconfig.PrivateKey" "cHJpdmF0ZQ=="
          listenPortWorld).log =
        (parameter_changed changeOk "root.wireguardconfig.PrivateKey" "b3RoZXI="
          { listenPortWorld with store := otherKeys }).log :=
  ⟨by decide, by decide,
    (parameter_changed_redaction changeOk "root.wireguardconfig.PrivateKey" listenPortWorld).2.1
      "b3RoZXI=" (Or.inl ⟨[], [], by decide⟩),
    (parameter_changed_redaction changeOk "root.wireguardconfig.PrivateKey" listenPortWorld).2.2.2
      otherKeys "cHJpdmF0ZQ==" "b3RoZXI="
      (fun n h1 h2 => by simp [otherKeys, listenPortWorld, h1, h2])
      (Or.inr ⟨"cHJpdmF0ZQ==", "b3RoZXI=", by decide, by decide, rfl, rfl⟩)
      (Or.inr ⟨"cHVibGlj", "cGVlcjI=", by decide, by decide, rfl, rfl⟩)
      (Or.inl (Or.inl ⟨[], [], by decide⟩))⟩

end ConfigUpdater
